import Mathlib

/-
Verification of the MCP server core (src/MCP/src/main.py, terminal_repl.py,
clojure_extension.py, python_extension.py): message envelope, method
dispatcher, process supervisor, terminal session multiplexer.

The embedding is a shallow one: each Python handler becomes a Lean function
from (request id, params, server state, oracle) to (new state, messages sent
on the requesting channel).  OS-level nondeterminism (subprocess spawn
results, stdin write failures, bytes read from pipes) is supplied by an
explicit Oracle record.  The server-wide mutable registries of the source
(ConnectionManager.running_processes, ConnectionManager.process_output_buffers,
terminal_repl._active_terminals, terminal_repl._current_terminal_id) become
the fields of SrvState.  Python dicts are modelled as insertion-ordered
association lists, matching dict iteration order.
-/

namespace MCP

mutual
/-- JSON-style values carried in message params and results. -/
inductive JVal where
  | null : JVal
  | bool (b : Bool) : JVal
  | num (n : Int) : JVal
  | str (s : String) : JVal
  | arr (xs : JList) : JVal
  | obj (fs : JFields) : JVal
/-- A JSON array body. -/
inductive JList where
  | nil : JList
  | cons (v : JVal) (tl : JList) : JList
/-- A JSON object body: an insertion-ordered field list. -/
inductive JFields where
  | nil : JFields
  | cons (k : String) (v : JVal) (tl : JFields) : JFields
end
deriving instance DecidableEq for JVal
deriving instance DecidableEq for JList
deriving instance DecidableEq for JFields
deriving instance Repr for JVal
deriving instance Repr for JList
deriving instance Repr for JFields

instance : Inhabited JVal := ⟨JVal.null⟩

/-- Build a JSON array from a Lean list. -/
def JList.ofList : List JVal → JList
  | [] => JList.nil
  | v :: tl => JList.cons v (JList.ofList tl)

/-- Build a JSON object body from a Lean association list. -/
def JFields.ofList : List (String × JVal) → JFields
  | [] => JFields.nil
  | (k, v) :: tl => JFields.cons k v (JFields.ofList tl)

/-- View a JSON object body as a Lean association list. -/
def JFields.toList : JFields → List (String × JVal)
  | JFields.nil => []
  | JFields.cons k v tl => (k, v) :: JFields.toList tl

/-- JSON array from a list of values. -/
def JVal.arrOf (xs : List JVal) : JVal := JVal.arr (JList.ofList xs)

/-- JSON object from an association list of fields. -/
def JVal.objOf (fs : List (String × JVal)) : JVal := JVal.obj (JFields.ofList fs)

/-- A params mapping, as received in a request (Python dict of JSON values). -/
abbrev Params := List (String × JVal)

/-- Dict lookup by key (first binding wins, as in a Python dict). -/
def Params.lookup (ps : Params) (k : String) : Option JVal :=
  match ps with
  | [] => none
  | (k', v) :: rest => if k' = k then some v else Params.lookup rest k

/-- Models params.get(k, d) for a string-valued parameter; a binding of another
shape is outside the well-typed domain considered here and falls back to d. -/
def Params.getS (ps : Params) (k d : String) : String :=
  match Params.lookup ps k with
  | some (JVal.str s) => s
  | _ => d

/-- Models params.get(k, d) for an integer-valued parameter. -/
def Params.getI (ps : Params) (k : String) (d : Int) : Int :=
  match Params.lookup ps k with
  | some (JVal.num n) => n
  | _ => d

/-- Models params.get(k, d) for a boolean-valued parameter. -/
def Params.getB (ps : Params) (k : String) (d : Bool) : Bool :=
  match Params.lookup ps k with
  | some (JVal.bool b) => b
  | _ => d

/-- Models params.get(k, d) where d is itself an optional string (for example
the current terminal id); a JSON null value behaves as Python None. -/
def Params.getSOpt (ps : Params) (k : String) (d : Option String) : Option String :=
  match Params.lookup ps k with
  | some (JVal.str s) => some s
  | some JVal.null => none
  | some _ => d
  | none => d

/-- Python truthiness of an optional string: None and the empty string are
falsy. -/
def falsyS : Option String → Bool
  | none => true
  | some s => s = ""

/-- The wire message type tag (class MessageType, main.py lines 15-18). -/
inductive MessageType where
  | request : MessageType
  | response : MessageType
  | error : MessageType
deriving DecidableEq, Repr, Inhabited

/-- The wire envelope (class Message, main.py lines 20-26): every field other
than type and id is optional. -/
structure Message where
  type : MessageType
  id : String
  method : Option String := none
  params : Option Params := none
  result : Option JVal := none
  error : Option JVal := none
deriving DecidableEq, Repr

/-- ConnectionManager.send_response (main.py lines 41-47). -/
def sendResponse (messageId : String) (result : JVal) : Message :=
  { type := MessageType.response, id := messageId, result := some result }

/-- ConnectionManager.send_error (main.py lines 49-55). -/
def sendError (messageId : String) (code : Int) (errorMessage : String) : Message :=
  { type := MessageType.error, id := messageId,
    error := some (JVal.objOf [("code", JVal.num code), ("message", JVal.str errorMessage)]) }

/-- A line of bytes read from a child process pipe, as seen after the decode
call: either it decodes to a text line (already rstripped), or decoding
raises UnicodeDecodeError with the given message. -/
inductive Chunk where
  | valid (s : String) : Chunk
  | invalid (emsg : String) : Chunk
deriving DecidableEq, Repr

/-- Sequentially decode a list of read chunks, as the settle-then-drain read
loops do line by line; the first invalid chunk raises, discarding the local
list (the source extends the stored output only after the loop). -/
def decodeChunks : List Chunk → Except String (List String)
  | [] => Except.ok []
  | Chunk.valid s :: rest =>
      match decodeChunks rest with
      | Except.ok ls => Except.ok (s :: ls)
      | Except.error e => Except.error e
  | Chunk.invalid e :: _ => Except.error e

/-- Insertion-ordered association list lookup, modelling a Python dict. -/
def alistGet (l : List (String × α)) (k : String) : Option α :=
  match l with
  | [] => none
  | (k', v) :: rest => if k' = k then some v else alistGet rest k

/-- Dict assignment d[k] = v: overwrite in place if present, else append. -/
def alistSet (l : List (String × α)) (k : String) (v : α) : List (String × α) :=
  match l with
  | [] => [(k, v)]
  | (k', v') :: rest =>
      if k' = k then (k, v) :: rest else (k', v') :: alistSet rest k v

/-- Dict deletion del d[k] (a no-op on an absent key; the source only deletes
keys it has just checked or inserted). -/
def alistErase (l : List (String × α)) (k : String) : List (String × α) :=
  match l with
  | [] => []
  | (k', v') :: rest => if k' = k then rest else (k', v') :: alistErase rest k

/-- One terminal session record (_active_terminals values,
terminal_repl.py lines 86-93); the OS process handle itself is opaque. -/
structure Terminal where
  shell : String
  cwd : String
  name : String
  output : List String
  createdAt : Int
deriving DecidableEq, Repr

/-- Whole-server mutable state.  stdinLog is instrumentation: it records, in
chronological order, every (key, text) write issued to a child process or
terminal stdin, so that theorems can speak about what was written. -/
structure SrvState where
  runningProcesses : List String
  processBuffers : List (String × List String)
  terminals : List (String × Terminal)
  currentTerminalId : Option String
  stdinLog : List (String × String)
deriving DecidableEq, Repr

/-- The empty server state at startup. -/
def initialState : SrvState :=
  { runningProcesses := [], processBuffers := [], terminals := [],
    currentTerminalId := none, stdinLog := [] }

/-- Outcome of an out-of-core shim handler (file operations, environment
checks, pip and similar): each of its paths sends exactly one response or one
error with some code and message; the branch taken depends on parameters and
OS results that are outside the core state. -/
inductive ShimOutcome where
  | ok (v : JVal) : ShimOutcome
  | fail (code : Int) (msg : String) : ShimOutcome
deriving DecidableEq, Repr

/-- OS-level nondeterminism consumed by the handlers. -/
structure Oracle where
  spawn : Except String Unit := Except.ok ()
  commOut : String := ""
  commErr : String := ""
  commCode : Int := 0
  killRes : Except String Unit := Except.ok ()
  stdinWrite : Except String Unit := Except.ok ()
  stdinWrite2 : Except String Unit := Except.ok ()
  readChunks : List Chunk := []
  readChunks2 : List Chunk := []
  shim : ShimOutcome := ShimOutcome.ok JVal.null
  freshId : String := ""
  now : Int := 0
  cwd0 : String := ""
  shell0 : String := "/bin/bash"
deriving Repr

/-- The default oracle: every OS interaction succeeds and reads nothing. -/
def oracle0 : Oracle := {}

/-- A handler outcome: the updated server state and the messages the handler
sent back on the requesting channel, in order. -/
abbrev HOut := SrvState × List Message

/-- handle_execute_command (main.py lines 60-91): spawn a shell command,
await communicate, send its captured output, or a code-500 error if the
spawn raised. -/
def handle_execute_command (rid : String) (_ps : Params) (st : SrvState) (o : Oracle) : HOut :=
  match o.spawn with
  | Except.error e => (st, [sendError rid 500 e])
  | Except.ok _ =>
      (st, [sendResponse rid (JVal.objOf
        [("output", JVal.str o.commOut), ("error", JVal.str o.commErr),
         ("exitCode", JVal.num o.commCode)])])

/-- handle_start_long_running_command (main.py lines 93-123): spawn with
captured stdin/stdout/stderr, register the key in the live set, create an
empty output buffer, launch the pump task, reply started; on a spawn failure
nothing is registered and a code-500 error is sent. -/
def handle_start_long_running_command (rid : String) (ps : Params) (st : SrvState) (o : Oracle) : HOut :=
  let pid := Params.getS ps "processId" rid
  match o.spawn with
  | Except.error e => (st, [sendError rid 500 e])
  | Except.ok _ =>
      ({ st with
          runningProcesses :=
            if pid ∈ st.runningProcesses then st.runningProcesses
            else st.runningProcesses ++ [pid],
          processBuffers := alistSet st.processBuffers pid [] },
       [sendResponse rid (JVal.objOf
         [("processId", JVal.str pid), ("status", JVal.str "started")])])

/-- handle_get_process_output (main.py lines 155-174): 404 when the key has
no buffer entry; otherwise return the buffered lines, clear the buffer, and
report live-set membership at the moment of the call. -/
def handle_get_process_output (rid : String) (ps : Params) (st : SrvState) (_o : Oracle) : HOut :=
  let pid := Params.getS ps "processId" ""
  match alistGet st.processBuffers pid with
  | none => (st, [sendError rid 404 ("Process " ++ pid ++ " not found")])
  | some lines =>
      ({ st with processBuffers := alistSet st.processBuffers pid [] },
       [sendResponse rid (JVal.objOf
         [("output", JVal.arrOf (lines.map JVal.str)),
          ("isRunning", JVal.bool (pid ∈ st.runningProcesses))])])

/-- handle_kill_process (main.py lines 176-195): 404 when the key is not in
the live set; otherwise kill and await the process (removing only the
live-set entry, never the buffer), or send a code-500 error if the kill
raised. -/
def handle_kill_process (rid : String) (ps : Params) (st : SrvState) (o : Oracle) : HOut :=
  let pid := Params.getS ps "processId" ""
  if pid ∈ st.runningProcesses then
    match o.killRes with
    | Except.error e => (st, [sendError rid 500 e])
    | Except.ok _ =>
        ({ st with runningProcesses := st.runningProcesses.filter (fun k => k ≠ pid) },
         [sendResponse rid (JVal.objOf [("status", JVal.str "killed")])])
  else (st, [sendError rid 404 ("Process " ++ pid ++ " not found")])

/-- Shim for the out-of-core handlers (file operations, environment checks,
pip, venv, inspect, clojure deps and test): every path of those handlers
ends in exactly one send_response or one send_error and touches none of the
core registries; which branch is taken depends on parameters and OS results
abstracted by the ShimOutcome oracle field. -/
def runShimHandler (rid : String) (_ps : Params) (st : SrvState) (o : Oracle) : HOut :=
  match o.shim with
  | ShimOutcome.ok v => (st, [sendResponse rid v])
  | ShimOutcome.fail c m => (st, [sendError rid c m])

/-- handle_clojure_repl (clojure_extension.py lines 62-124): action start
delegates to the long-running start with key clj_repl_ plus the request id;
action eval writes code plus a newline to the live process stdin and drains
its buffer; action stop delegates to kill; anything else is a 400. -/
def handle_clojure_repl (rid : String) (ps : Params) (st : SrvState) (o : Oracle) : HOut :=
  let action := Params.getS ps "action" "start"
  let pid := Params.getS ps "processId" ""
  let code := Params.getS ps "code" ""
  if action = "start" then
    handle_start_long_running_command rid
      [("command", JVal.str "clojure"), ("cwd", JVal.str o.cwd0),
       ("processId", JVal.str ("clj_repl_" ++ rid))] st o
  else if action = "eval" ∧ pid ≠ "" ∧ code ≠ "" then
    if pid ∈ st.runningProcesses then
      match o.stdinWrite with
      | Except.error e => (st, [sendError rid 500 e])
      | Except.ok _ =>
          let st1 := { st with stdinLog := st.stdinLog ++ [(pid, code ++ "\n")] }
          match alistGet st1.processBuffers pid with
          | none =>
              -- Python would raise KeyError here; caught by the outer
              -- except and reported as a code-500 error.
              (st1, [sendError rid 500 ("'" ++ pid ++ "'")])
          | some lines =>
              ({ st1 with processBuffers := alistSet st1.processBuffers pid [] },
               [sendResponse rid (JVal.objOf
                 [("result", JVal.str (String.intercalate "\n" lines)),
                  ("processId", JVal.str pid)])])
    else (st, [sendError rid 404 ("REPL process " ++ pid ++ " not found")])
  else if action = "stop" ∧ pid ≠ "" then
    handle_kill_process rid [("processId", JVal.str pid)] st o
  else (st, [sendError rid 400 "Invalid REPL action or missing parameters"])

/-- Append lines to a terminal session's stored output. -/
def appendTerminalOutput (st : SrvState) (tid : String) (lines : List String) : SrvState :=
  match alistGet st.terminals tid with
  | none => st
  | some t =>
      { st with terminals := alistSet st.terminals tid { t with output := t.output ++ lines } }

/-- handle_create_terminal_session (terminal_repl.py lines 57-121): spawn a
shell, store the session record, make it current if no current session
exists (Python falsy check), then capture a bounded window of initial
output; a decode failure in that capture is caught by the outer except and
reported as a code-500 error with the session already stored. -/
def handle_create_terminal_session (rid : String) (ps : Params) (st : SrvState) (o : Oracle) : HOut :=
  let shell := Params.getS ps "shell" o.shell0
  let cwd := Params.getS ps "cwd" o.cwd0
  let name := Params.getS ps "name" ("Terminal-" ++ toString (st.terminals.length + 1))
  match o.spawn with
  | Except.error e => (st, [sendError rid 500 e])
  | Except.ok _ =>
      let tid := o.freshId
      let newTerm : Terminal :=
        { shell := shell, cwd := cwd, name := name, output := [], createdAt := o.now }
      let st1 := { st with terminals := alistSet st.terminals tid newTerm }
      let st2 := if falsyS st1.currentTerminalId
                 then { st1 with currentTerminalId := some tid } else st1
      match decodeChunks o.readChunks with
      | Except.error em => (st2, [sendError rid 500 em])
      | Except.ok lines =>
          (appendTerminalOutput st2 tid lines,
           [sendResponse rid (JVal.objOf
             [("terminalId", JVal.str tid), ("name", JVal.str name),
              ("shell", JVal.str shell),
              ("initialOutput", JVal.arrOf (lines.map JVal.str))])])

/-- handle_list_terminal_sessions (terminal_repl.py lines 123-145): metadata
for every session in map iteration order; no mutation. -/
def handle_list_terminal_sessions (rid : String) (_ps : Params) (st : SrvState) (_o : Oracle) : HOut :=
  (st, [sendResponse rid (JVal.objOf
    [("sessions", JVal.arrOf (st.terminals.map (fun p => JVal.objOf
       [("terminalId", JVal.str p.1), ("name", JVal.str p.2.name),
        ("shell", JVal.str p.2.shell), ("cwd", JVal.str p.2.cwd),
        ("isCurrent", JVal.bool (st.currentTerminalId = some p.1)),
        ("createdAt", JVal.num p.2.createdAt),
        ("outputLineCount", JVal.num p.2.output.length)])))])])

/-- handle_switch_terminal_session (terminal_repl.py lines 147-177): 400 on a
missing id, 404 on an unknown id, otherwise repoint the current-session
pointer. -/
def handle_switch_terminal_session (rid : String) (ps : Params) (st : SrvState) (_o : Oracle) : HOut :=
  let tid := Params.getS ps "terminalId" ""
  if tid = "" then (st, [sendError rid 400 "Terminal ID is required"])
  else
    match alistGet st.terminals tid with
    | none => (st, [sendError rid 404 ("Terminal session with ID " ++ tid ++ " not found")])
    | some t =>
        ({ st with currentTerminalId := some tid },
         [sendResponse rid (JVal.objOf
           [("terminalId", JVal.str tid), ("name", JVal.str t.name),
            ("shell", JVal.str t.shell), ("cwd", JVal.str t.cwd)])])

/-- handle_close_terminal_session (terminal_repl.py lines 179-223): resolve
the key (defaulting to the current session), kill the shell, remove the
session, and if it was current repoint to the first remaining session or
clear the pointer. -/
def handle_close_terminal_session (rid : String) (ps : Params) (st : SrvState) (o : Oracle) : HOut :=
  let tid? := Params.getSOpt ps "terminalId" st.currentTerminalId
  if falsyS tid? then (st, [sendError rid 400 "No active terminal session"])
  else
    let tid := tid?.getD ""
    match alistGet st.terminals tid with
    | none => (st, [sendError rid 404 ("Terminal session with ID " ++ tid ++ " not found")])
    | some _ =>
        match o.killRes with
        | Except.error e => (st, [sendError rid 500 e])
        | Except.ok _ =>
            let remaining := alistErase st.terminals tid
            let newCur :=
              if st.currentTerminalId = some tid then
                match remaining with
                | [] => none
                | p :: _ => some p.1
              else st.currentTerminalId
            ({ st with terminals := remaining, currentTerminalId := newCur },
             [sendResponse rid (JVal.objOf
               [("success", JVal.bool true),
                ("message", JVal.str ("Terminal session " ++ tid ++ " closed")),
                ("currentTerminalId",
                  match newCur with
                  | none => JVal.null
                  | some c => JVal.str c)])])

/-- handle_write_to_terminal (terminal_repl.py lines 225-281): write the text
plus a newline to the resolved session's stdin, settle, drain a bounded
window of output lines, and append them to the session history. -/
def handle_write_to_terminal (rid : String) (ps : Params) (st : SrvState) (o : Oracle) : HOut :=
  let text := Params.getS ps "text" ""
  let tid? := Params.getSOpt ps "terminalId" st.currentTerminalId
  if text = "" then (st, [sendError rid 400 "Text to write is required"])
  else if falsyS tid? then (st, [sendError rid 400 "No active terminal session"])
  else
    let tid := tid?.getD ""
    match alistGet st.terminals tid with
    | none => (st, [sendError rid 404 ("Terminal session with ID " ++ tid ++ " not found")])
    | some _ =>
        match o.stdinWrite with
        | Except.error e => (st, [sendError rid 500 e])
        | Except.ok _ =>
            let st1 := { st with stdinLog := st.stdinLog ++ [(tid, text ++ "\n")] }
            match decodeChunks o.readChunks with
            | Except.error em => (st1, [sendError rid 500 em])
            | Except.ok lines =>
                (appendTerminalOutput st1 tid lines,
                 [sendResponse rid (JVal.objOf
                   [("output", JVal.arrOf (lines.map JVal.str)),
                    ("lineCount", JVal.num lines.length)])])

/-- Python list slicing lst drop-from index i, that is lst[i:], with the
negative-index and clipping conventions of the language. -/
def pyDropFrom (xs : List String) (i : Int) : List String :=
  if i < 0 then xs.drop (max 0 ((xs.length : Int) + i)).toNat
  else xs.drop (min i (xs.length : Int)).toNat

/-- Python list slicing lst take-to index i, that is lst[:i]. -/
def pyTakeTo (xs : List String) (i : Int) : List String :=
  if i < 0 then xs.take (max 0 ((xs.length : Int) + i)).toNat
  else xs.take (min i (xs.length : Int)).toNat

/-- handle_read_terminal_output (terminal_repl.py lines 283-323): return a
window of the session's stored output, the last lineCount lines when
fromEnd (Python slice output[-lineCount:]) or the first lineCount lines
otherwise, without mutating anything. -/
def handle_read_terminal_output (rid : String) (ps : Params) (st : SrvState) (_o : Oracle) : HOut :=
  let lineCount := Params.getI ps "lineCount" 10
  let fromEnd := Params.getB ps "fromEnd" true
  let tid? := Params.getSOpt ps "terminalId" st.currentTerminalId
  if falsyS tid? then (st, [sendError rid 400 "No active terminal session"])
  else
    let tid := tid?.getD ""
    match alistGet st.terminals tid with
    | none => (st, [sendError rid 404 ("Terminal session with ID " ++ tid ++ " not found")])
    | some t =>
        let window :=
          if fromEnd then
            if t.output = [] then [] else pyDropFrom t.output (-lineCount)
          else
            if t.output = [] then [] else pyTakeTo t.output lineCount
        (st, [sendResponse rid (JVal.objOf
          [("output", JVal.arrOf (window.map JVal.str)),
           ("lineCount", JVal.num window.length),
           ("totalLines", JVal.num t.output.length)])])

/-- The control-character table of handle_send_control_character
(terminal_repl.py lines 355-364). -/
def ctrlChars : List (String × Nat) :=
  [("c", 3), ("d", 4), ("z", 26), ("l", 12), ("a", 1), ("e", 5), ("u", 21), ("r", 18)]

/-- handle_send_control_character (terminal_repl.py lines 325-400): map a
one-letter mnemonic to its control byte, write that raw byte to the resolved
session's stdin, settle, drain, and append to history; unmapped mnemonics
are a 400. -/
def handle_send_control_character (rid : String) (ps : Params) (st : SrvState) (o : Oracle) : HOut :=
  let character := Params.getS ps "character" ""
  let tid? := Params.getSOpt ps "terminalId" st.currentTerminalId
  if character = "" then (st, [sendError rid 400 "Control character is required"])
  else if falsyS tid? then (st, [sendError rid 400 "No active terminal session"])
  else
    let tid := tid?.getD ""
    match alistGet st.terminals tid with
    | none => (st, [sendError rid 404 ("Terminal session with ID " ++ tid ++ " not found")])
    | some _ =>
        match alistGet ctrlChars character.toLower with
        | none => (st, [sendError rid 400 ("Unsupported control character: " ++ character)])
        | some code =>
            match o.stdinWrite with
            | Except.error e => (st, [sendError rid 500 e])
            | Except.ok _ =>
                let st1 := { st with
                  stdinLog := st.stdinLog ++ [(tid, String.mk [Char.ofNat code])] }
                match decodeChunks o.readChunks with
                | Except.error em => (st1, [sendError rid 500 em])
                | Except.ok lines =>
                    (appendTerminalOutput st1 tid lines,
                     [sendResponse rid (JVal.objOf
                       [("success", JVal.bool true),
                        ("character", JVal.str character),
                        ("output", JVal.arrOf (lines.map JVal.str)),
                        ("lineCount", JVal.num lines.length)])])

/-- handle_clear_terminal_output (terminal_repl.py lines 402-434): truncate
the resolved session's stored output to empty; the process is untouched. -/
def handle_clear_terminal_output (rid : String) (ps : Params) (st : SrvState) (_o : Oracle) : HOut :=
  let tid? := Params.getSOpt ps "terminalId" st.currentTerminalId
  if falsyS tid? then (st, [sendError rid 400 "No active terminal session"])
  else
    let tid := tid?.getD ""
    match alistGet st.terminals tid with
    | none => (st, [sendError rid 404 ("Terminal session with ID " ++ tid ++ " not found")])
    | some t =>
        ({ st with terminals := alistSet st.terminals tid { t with output := [] } },
         [sendResponse rid (JVal.objOf
           [("success", JVal.bool true),
            ("message", JVal.str ("Terminal output cleared for session " ++ tid))])])

/-- Result of _execute_terminal_command (terminal_repl.py lines 23-55): the
updated state and drained lines, or the message of the exception it raised. -/
inductive ExecTermRes where
  | ok (st : SrvState) (out : List String) : ExecTermRes
  | exn (st : SrvState) (emsg : String) : ExecTermRes

/-- The helper _execute_terminal_command: resolve the session (raising on a
missing one), write the command plus a newline, settle, drain, and extend
the stored output. -/
def execTerminalCommand (command : String) (tidArg : Option String) (st : SrvState)
    (o : Oracle) : ExecTermRes :=
  if falsyS tidArg ∧ falsyS st.currentTerminalId then
    ExecTermRes.exn st "No active terminal session"
  else
    let tid := if falsyS tidArg then st.currentTerminalId.getD "" else tidArg.getD ""
    match alistGet st.terminals tid with
    | none => ExecTermRes.exn st ("Terminal session " ++ tid ++ " not found")
    | some _ =>
        match o.stdinWrite with
        | Except.error e => ExecTermRes.exn st e
        | Except.ok _ =>
            let st1 := { st with stdinLog := st.stdinLog ++ [(tid, command ++ "\n")] }
            match decodeChunks o.readChunks with
            | Except.error em => ExecTermRes.exn st1 em
            | Except.ok lines => ExecTermRes.ok (appendTerminalOutput st1 tid lines) lines

/-- handle_execute_repl_command (terminal_repl.py lines 436-518): after
validation, start the requested REPL in the resolved session via
_execute_terminal_command, then write the command and drain a second window
of output into the history. -/
def handle_execute_repl_command (rid : String) (ps : Params) (st : SrvState) (o : Oracle) : HOut :=
  let command := Params.getS ps "command" ""
  let replType := Params.getS ps "repl" ""
  let tid? := Params.getSOpt ps "terminalId" st.currentTerminalId
  if command = "" then (st, [sendError rid 400 "Command is required"])
  else if replType = "" then (st, [sendError rid 400 "REPL type is required"])
  else if falsyS tid? then (st, [sendError rid 400 "No active terminal session"])
  else
    let tid := tid?.getD ""
    match alistGet st.terminals tid with
    | none => (st, [sendError rid 404 ("Terminal session with ID " ++ tid ++ " not found")])
    | some _ =>
        let low := replType.toLower
        if low = "python" ∨ low = "clojure" ∨ low = "clj" ∨ low = "clojurescript" ∨ low = "cljs" then
          let replCmd :=
            if low = "python" then "python3"
            else if low = "clojure" ∨ low = "clj" then "clj"
            else "clj -m cljs.main"
          match execTerminalCommand replCmd (some tid) st o with
          | ExecTermRes.exn st1 em => (st1, [sendError rid 500 em])
          | ExecTermRes.ok st1 _ =>
              match o.stdinWrite2 with
              | Except.error e => (st1, [sendError rid 500 e])
              | Except.ok _ =>
                  let st2 := { st1 with stdinLog := st1.stdinLog ++ [(tid, command ++ "\n")] }
                  match decodeChunks o.readChunks2 with
                  | Except.error em => (st2, [sendError rid 500 em])
                  | Except.ok lines =>
                      (appendTerminalOutput st2 tid lines,
                       [sendResponse rid (JVal.objOf
                         [("repl", JVal.str replType), ("command", JVal.str command),
                          ("output", JVal.arrOf (lines.map JVal.str)),
                          ("lineCount", JVal.num lines.length)])])
        else (st, [sendError rid 400 ("Unsupported REPL type: " ++ replType)])

/-- What one iteration of the pump loop of collect_process_output
(main.py lines 125-153) observes: whether both streams are at EOF with the
exit code already reported, and what each bounded-wait readline produced
(none models a TimeoutError or an empty end-of-stream read, which the
source skips over). -/
structure PumpObs where
  exited : Option Int := none
  outLine : Option Chunk := none
  errLine : Option Chunk := none
deriving DecidableEq, Repr

/-- Append one line to a process output buffer.  The entry always exists
when the pump runs: it is created by start before the task is spawned, and
no operation ever deletes it. -/
def appendProcLine (st : SrvState) (pid : String) (line : String) : SrvState :=
  match alistGet st.processBuffers pid with
  | none => st
  | some buf => { st with processBuffers := alistSet st.processBuffers pid (buf ++ [line]) }

/-- Outcome of one pump iteration: the loop appended the terminal marker and
broke, continued, or died on an exception that its except clauses (which
catch only TimeoutError) do not cover. -/
inductive PumpStep where
  | finished (st : SrvState) : PumpStep
  | next (st : SrvState) : PumpStep
  | crashed (st : SrvState) : PumpStep
deriving DecidableEq, Repr

/-- One iteration of collect_process_output: when both streams are at EOF
and the exit code is known, append the terminal marker line and remove the
key from the live set; otherwise decode and append the stdout line (ERROR:
prefixed for stderr); a decode failure is an uncaught UnicodeDecodeError
that escapes the loop, leaving the buffer as it was. -/
def pumpIter (pid : String) (st : SrvState) (ob : PumpObs) : PumpStep :=
  match ob.exited with
  | some code =>
      let st1 := appendProcLine st pid ("Process exited with code " ++ toString code)
      PumpStep.finished
        { st1 with runningProcesses := st1.runningProcesses.filter (fun k => k ≠ pid) }
  | none =>
      match ob.outLine with
      | some (Chunk.invalid _) => PumpStep.crashed st
      | some (Chunk.valid s) =>
          let st1 := appendProcLine st pid s
          match ob.errLine with
          | some (Chunk.invalid _) => PumpStep.crashed st1
          | some (Chunk.valid e) => PumpStep.next (appendProcLine st1 pid ("ERROR: " ++ e))
          | none => PumpStep.next st1
      | none =>
          match ob.errLine with
          | some (Chunk.invalid _) => PumpStep.crashed st
          | some (Chunk.valid e) => PumpStep.next (appendProcLine st pid ("ERROR: " ++ e))
          | none => PumpStep.next st

/-- Cumulative outcome of the pump task over a sequence of iteration
observations. -/
inductive PumpOutcome where
  | finished (st : SrvState) : PumpOutcome
  | running (st : SrvState) : PumpOutcome
  | crashed (st : SrvState) : PumpOutcome
deriving DecidableEq, Repr

/-- Run the pump loop over a list of iteration observations, stopping early
when it breaks at process exit or dies on an uncaught exception. -/
def pumpRun (pid : String) (st : SrvState) : List PumpObs → PumpOutcome
  | [] => PumpOutcome.running st
  | ob :: rest =>
      match pumpIter pid st ob with
      | PumpStep.finished st1 => PumpOutcome.finished st1
      | PumpStep.crashed st1 => PumpOutcome.crashed st1
      | PumpStep.next st1 => pumpRun pid st1 rest

/-- The method table assembled at import time: the core METHOD_HANDLERS of
main.py lines 387-401 plus the python extension, clojure extension and
terminal handler registrations. -/
def registeredMethods : List String :=
  ["executeCommand", "startLongRunningCommand", "getProcessOutput", "killProcess",
   "readFile", "writeFile", "listDirectory", "createDirectory", "deleteFile",
   "renameFile", "searchFiles", "checkPythonEnvironment", "checkClojureEnvironment",
   "pythonInspect", "pythonRunCode", "pythonPip", "pythonVenv",
   "clojureDeps", "clojureRepl", "clojureTest",
   "createTerminalSession", "listTerminalSessions", "switchTerminalSession",
   "closeTerminalSession", "writeToTerminal", "readTerminalOutput",
   "sendControlCharacter", "clearTerminalOutput", "executeReplCommand"]

/-- Look up and run the handler registered for a method name (the
METHOD_HANDLERS.get call of main.py line 427); the final fallback is never
reached for a registered name. -/
def runHandler (m rid : String) (ps : Params) (st : SrvState) (o : Oracle) : HOut :=
  if m = "executeCommand" then handle_execute_command rid ps st o
  else if m = "startLongRunningCommand" then handle_start_long_running_command rid ps st o
  else if m = "getProcessOutput" then handle_get_process_output rid ps st o
  else if m = "killProcess" then handle_kill_process rid ps st o
  else if m = "clojureRepl" then handle_clojure_repl rid ps st o
  else if m = "createTerminalSession" then handle_create_terminal_session rid ps st o
  else if m = "listTerminalSessions" then handle_list_terminal_sessions rid ps st o
  else if m = "switchTerminalSession" then handle_switch_terminal_session rid ps st o
  else if m = "closeTerminalSession" then handle_close_terminal_session rid ps st o
  else if m = "writeToTerminal" then handle_write_to_terminal rid ps st o
  else if m = "readTerminalOutput" then handle_read_terminal_output rid ps st o
  else if m = "sendControlCharacter" then handle_send_control_character rid ps st o
  else if m = "clearTerminalOutput" then handle_clear_terminal_output rid ps st o
  else if m = "executeReplCommand" then handle_execute_repl_command rid ps st o
  else if m ∈ registeredMethods then runShimHandler rid ps st o
  else (st, [])

/-- The dispatch step of websocket_endpoint (main.py lines 426-436): run the
registered handler, or synthesize the 404 method-not-found error. -/
def dispatchRequest (rid m : String) (ps : Params) (st : SrvState) (o : Oracle) : HOut :=
  if m ∈ registeredMethods then runHandler m rid ps st o
  else (st, [sendError rid 404 ("Method '" ++ m ++ "' not found")])

/-- A received JSON object frame before pydantic validation: which of the
six envelope fields are present, and with what values. -/
structure RawFrame where
  typeF : Option JVal := none
  idF : Option JVal := none
  methodF : Option JVal := none
  paramsF : Option JVal := none
  resultF : Option JVal := none
  errorF : Option JVal := none
deriving DecidableEq, Repr

/-- Parse the type tag as the MessageType str-enum does. -/
def parseMessageType : JVal → Option MessageType
  | JVal.str "request" => some MessageType.request
  | JVal.str "response" => some MessageType.response
  | JVal.str "error" => some MessageType.error
  | _ => none

/-- Validation of an Optional str field: absent or null becomes None, a
string passes through, anything else fails validation. -/
def optStrField : Option JVal → Option (Option String)
  | none => some none
  | some JVal.null => some none
  | some (JVal.str s) => some (some s)
  | some _ => none

/-- Validation of an Optional Dict field. -/
def optObjField : Option JVal → Option (Option Params)
  | none => some none
  | some JVal.null => some none
  | some (JVal.obj fs) => some (some (JFields.toList fs))
  | some _ => none

/-- Pydantic validation of the Message model (main.py lines 20-26): type
must be one of the three tags, id must be a string, method a string or
null, params and error objects or null, result anything; nothing enforces
the one-variant exclusivity or a non-empty id. -/
def decodeMessage (r : RawFrame) : Option Message :=
  match r.typeF with
  | none => none
  | some tv =>
      match parseMessageType tv with
      | none => none
      | some t =>
          match r.idF with
          | some (JVal.str i) =>
              match optStrField r.methodF, optObjField r.paramsF, optObjField r.errorF with
              | some m, some ps, some e =>
                  some { type := t, id := i, method := m, params := ps,
                         result := r.resultF,
                         error := e.map JVal.objOf }
              | _, _, _ => none
          | _ => none

/-- One frame as received off the websocket: either text that is not valid
JSON, or a JSON object. -/
inductive Frame where
  | malformed : Frame
  | obj (r : RawFrame) : Frame
deriving DecidableEq, Repr

/-- Python truthiness of the optional method string at main.py line 426. -/
def truthyMethod : Option String → Bool
  | none => false
  | some s => s ≠ ""

/-- The body of the receive loop of websocket_endpoint (main.py lines
420-445) for one frame: malformed JSON is dropped by the JSONDecodeError
clause, a frame failing pydantic validation is dropped by the generic
except clause (logged to stderr, no reply, the channel stays open), a
decoded request with a truthy method is dispatched, and every other decoded
message is silently ignored. -/
def processFrame (st : SrvState) (o : Oracle) : Frame → HOut
  | Frame.malformed => (st, [])
  | Frame.obj r =>
      match decodeMessage r with
      | none => (st, [])
      | some m =>
          if m.type = MessageType.request ∧ truthyMethod m.method then
            dispatchRequest m.id (m.method.getD "") (m.params.getD []) st o
          else (st, [])

/-- A request frame as seen by the scheduling model of the endpoint task:
its id and the number of cooperative segments (pieces between await
suspension points) in its handler's body. -/
structure LoopReq where
  id : String
  hsteps : Nat
deriving DecidableEq, Repr

/-- The control point of the endpoint task of websocket_endpoint: parked on
websocket.receive_text, or awaiting the handler of the request with the
given index with the given number of cooperative segments still to run. -/
inductive LoopPhase where
  | receiving : LoopPhase
  | running (reqIdx : Nat) (remaining : Nat) : LoopPhase
deriving DecidableEq, Repr

/-- An observable event of the endpoint task in chronological order. -/
inductive LoopEvent where
  | readFrame (idx : Nat) : LoopEvent
  | handlerDone (idx : Nat) : LoopEvent
deriving DecidableEq, Repr

/-- A configuration of the endpoint task: frames not yet read off the wire,
how many frames have been read, the task's control point, and the event log
so far. -/
structure LoopCfg where
  pending : List LoopReq
  readCount : Nat
  phase : LoopPhase
  events : List LoopEvent
deriving DecidableEq, Repr

/-- Small-step semantics of the endpoint task (main.py lines 420-429).  The
source awaits the handler inline in the loop body, so the task has a single
point of control: in the receiving phase it reads the next available frame
and enters the handler; in the running phase each step runs one cooperative
segment of that handler; only when the handler finishes does the task
return to receive_text.  Time during which other event-loop tasks run is
between these steps; none of them executes this channel's receive call. -/
def loopStep (c : LoopCfg) : LoopCfg :=
  match c.phase with
  | LoopPhase.receiving =>
      match c.pending with
      | [] => c
      | r :: rest =>
          { pending := rest, readCount := c.readCount + 1,
            phase := LoopPhase.running c.readCount r.hsteps,
            events := c.events ++ [LoopEvent.readFrame c.readCount] }
  | LoopPhase.running i (n + 1) => { c with phase := LoopPhase.running i n }
  | LoopPhase.running i 0 =>
      { c with phase := LoopPhase.receiving,
               events := c.events ++ [LoopEvent.handlerDone i] }

/-- The initial configuration for a list of incoming frames. -/
def loopStart (frames : List LoopReq) : LoopCfg :=
  { pending := frames, readCount := 0, phase := LoopPhase.receiving, events := [] }

/-
Helper lemmas.
-/

theorem alistGet_set_self (l : List (String × α)) (k : String) (v : α) :
    alistGet (alistSet l k v) k = some v := by
  induction l with
  | nil => simp [alistSet, alistGet]
  | cons p rest ih =>
      by_cases h : p.1 = k
      · simp [alistSet, alistGet, h]
      · simp [alistSet, alistGet, h, ih]

theorem alistGet_set_ne (l : List (String × α)) (k k' : String) (v : α) (h : k' ≠ k) :
    alistGet (alistSet l k v) k' = alistGet l k' := by
  induction l with
  | nil => simp [alistSet, alistGet, Ne.symm h]
  | cons p rest ih =>
      by_cases hp : p.1 = k
      · subst hp
        simp [alistSet, alistGet, Ne.symm h]
      · by_cases hq : p.1 = k'
        · simp [alistSet, alistGet, hp, hq, h]
        · simp [alistSet, alistGet, hp, hq, ih]

theorem alistGet_set_isSome (l : List (String × α)) (k k' : String) (v : α)
    (h : (alistGet l k').isSome) : (alistGet (alistSet l k v) k').isSome := by
  by_cases he : k' = k
  · subst he; simp [alistGet_set_self]
  · rwa [alistGet_set_ne l k k' v he]

/-- The shape every handler reply path has: exactly one message, addressed
to the request id, and it is a response or an error. -/
def RepliesOnce (r : HOut) (rid : String) : Prop :=
  ∃ msg : Message, r.2 = [msg] ∧ msg.id = rid ∧
    (msg.type = MessageType.response ∨ msg.type = MessageType.error)

theorem repliesOnce_response (st : SrvState) (rid : String) (v : JVal) :
    RepliesOnce (st, [sendResponse rid v]) rid :=
  ⟨sendResponse rid v, rfl, rfl, Or.inl rfl⟩

theorem repliesOnce_error (st : SrvState) (rid : String) (c : Int) (m : String) :
    RepliesOnce (st, [sendError rid c m]) rid :=
  ⟨sendError rid c m, rfl, rfl, Or.inr rfl⟩

theorem repliesOnce_execute_command (rid : String) (ps : Params) (st : SrvState) (o : Oracle) :
    RepliesOnce (handle_execute_command rid ps st o) rid := by
  simp only [handle_execute_command]
  repeat' split
  all_goals first
    | exact repliesOnce_response _ _ _
    | exact repliesOnce_error _ _ _ _

theorem repliesOnce_start (rid : String) (ps : Params) (st : SrvState) (o : Oracle) :
    RepliesOnce (handle_start_long_running_command rid ps st o) rid := by
  simp only [handle_start_long_running_command]
  repeat' split
  all_goals first
    | exact repliesOnce_response _ _ _
    | exact repliesOnce_error _ _ _ _

theorem repliesOnce_get_output (rid : String) (ps : Params) (st : SrvState) (o : Oracle) :
    RepliesOnce (handle_get_process_output rid ps st o) rid := by
  simp only [handle_get_process_output]
  repeat' split
  all_goals first
    | exact repliesOnce_response _ _ _
    | exact repliesOnce_error _ _ _ _

theorem repliesOnce_kill (rid : String) (ps : Params) (st : SrvState) (o : Oracle) :
    RepliesOnce (handle_kill_process rid ps st o) rid := by
  simp only [handle_kill_process]
  repeat' split
  all_goals first
    | exact repliesOnce_response _ _ _
    | exact repliesOnce_error _ _ _ _

theorem repliesOnce_shim (rid : String) (ps : Params) (st : SrvState) (o : Oracle) :
    RepliesOnce (runShimHandler rid ps st o) rid := by
  simp only [runShimHandler]
  repeat' split
  all_goals first
    | exact repliesOnce_response _ _ _
    | exact repliesOnce_error _ _ _ _

theorem repliesOnce_clojure_repl (rid : String) (ps : Params) (st : SrvState) (o : Oracle) :
    RepliesOnce (handle_clojure_repl rid ps st o) rid := by
  simp only [handle_clojure_repl]
  repeat' split
  all_goals first
    | exact repliesOnce_response _ _ _
    | exact repliesOnce_error _ _ _ _
    | exact repliesOnce_start _ _ _ _
    | exact repliesOnce_kill _ _ _ _

theorem repliesOnce_create_terminal (rid : String) (ps : Params) (st : SrvState) (o : Oracle) :
    RepliesOnce (handle_create_terminal_session rid ps st o) rid := by
  simp only [handle_create_terminal_session]
  repeat' split
  all_goals first
    | exact repliesOnce_response _ _ _
    | exact repliesOnce_error _ _ _ _

theorem repliesOnce_list_terminals (rid : String) (ps : Params) (st : SrvState) (o : Oracle) :
    RepliesOnce (handle_list_terminal_sessions rid ps st o) rid :=
  repliesOnce_response _ _ _

theorem repliesOnce_switch_terminal (rid : String) (ps : Params) (st : SrvState) (o : Oracle) :
    RepliesOnce (handle_switch_terminal_session rid ps st o) rid := by
  simp only [handle_switch_terminal_session]
  repeat' split
  all_goals first
    | exact repliesOnce_response _ _ _
    | exact repliesOnce_error _ _ _ _

theorem repliesOnce_close_terminal (rid : String) (ps : Params) (st : SrvState) (o : Oracle) :
    RepliesOnce (handle_close_terminal_session rid ps st o) rid := by
  simp only [handle_close_terminal_session]
  repeat' split
  all_goals first
    | exact repliesOnce_response _ _ _
    | exact repliesOnce_error _ _ _ _

theorem repliesOnce_write_terminal (rid : String) (ps : Params) (st : SrvState) (o : Oracle) :
    RepliesOnce (handle_write_to_terminal rid ps st o) rid := by
  simp only [handle_write_to_terminal]
  repeat' split
  all_goals first
    | exact repliesOnce_response _ _ _
    | exact repliesOnce_error _ _ _ _

theorem repliesOnce_read_terminal (rid : String) (ps : Params) (st : SrvState) (o : Oracle) :
    RepliesOnce (handle_read_terminal_output rid ps st o) rid := by
  simp only [handle_read_terminal_output]
  repeat' split
  all_goals first
    | exact repliesOnce_response _ _ _
    | exact repliesOnce_error _ _ _ _

theorem repliesOnce_send_control (rid : String) (ps : Params) (st : SrvState) (o : Oracle) :
    RepliesOnce (handle_send_control_character rid ps st o) rid := by
  simp only [handle_send_control_character]
  repeat' split
  all_goals first
    | exact repliesOnce_response _ _ _
    | exact repliesOnce_error _ _ _ _

theorem repliesOnce_clear_terminal (rid : String) (ps : Params) (st : SrvState) (o : Oracle) :
    RepliesOnce (handle_clear_terminal_output rid ps st o) rid := by
  simp only [handle_clear_terminal_output]
  repeat' split
  all_goals first
    | exact repliesOnce_response _ _ _
    | exact repliesOnce_error _ _ _ _

theorem repliesOnce_exec_repl (rid : String) (ps : Params) (st : SrvState) (o : Oracle) :
    RepliesOnce (handle_execute_repl_command rid ps st o) rid := by
  simp only [handle_execute_repl_command]
  repeat' split
  all_goals first
    | exact repliesOnce_response _ _ _
    | exact repliesOnce_error _ _ _ _

/-- C1: for every well-formed Request whose method name is registered in the
dispatcher's handler table, the server emits exactly one message back on the
requesting channel, that message is either a Response or an Error, and its
id field equals the request's id. -/
theorem registered_method_exactly_one_reply (rid m : String) (ps : Params)
    (st : SrvState) (o : Oracle) (hm : m ∈ registeredMethods) :
    ∃ msg : Message, (dispatchRequest rid m ps st o).2 = [msg] ∧ msg.id = rid ∧
      (msg.type = MessageType.response ∨ msg.type = MessageType.error) := by
  have h : RepliesOnce (dispatchRequest rid m ps st o) rid := by
    unfold dispatchRequest
    rw [if_pos hm]
    have hm' : m = "executeCommand" ∨ m = "startLongRunningCommand" ∨
        m = "getProcessOutput" ∨ m = "killProcess" ∨ m = "readFile" ∨
        m = "writeFile" ∨ m = "listDirectory" ∨ m = "createDirectory" ∨
        m = "deleteFile" ∨ m = "renameFile" ∨ m = "searchFiles" ∨
        m = "checkPythonEnvironment" ∨ m = "checkClojureEnvironment" ∨
        m = "pythonInspect" ∨ m = "pythonRunCode" ∨ m = "pythonPip" ∨
        m = "pythonVenv" ∨ m = "clojureDeps" ∨ m = "clojureRepl" ∨
        m = "clojureTest" ∨ m = "createTerminalSession" ∨
        m = "listTerminalSessions" ∨ m = "switchTerminalSession" ∨
        m = "closeTerminalSession" ∨ m = "writeToTerminal" ∨
        m = "readTerminalOutput" ∨ m = "sendControlCharacter" ∨
        m = "clearTerminalOutput" ∨ m = "executeReplCommand" := by
      simpa [registeredMethods] using hm
    rcases hm' with rfl|rfl|rfl|rfl|rfl|rfl|rfl|rfl|rfl|rfl|rfl|rfl|rfl|rfl|rfl|
      rfl|rfl|rfl|rfl|rfl|rfl|rfl|rfl|rfl|rfl|rfl|rfl|rfl|rfl
    all_goals first
      | exact repliesOnce_execute_command rid ps st o
      | exact repliesOnce_start rid ps st o
      | exact repliesOnce_get_output rid ps st o
      | exact repliesOnce_kill rid ps st o
      | exact repliesOnce_clojure_repl rid ps st o
      | exact repliesOnce_create_terminal rid ps st o
      | exact repliesOnce_list_terminals rid ps st o
      | exact repliesOnce_switch_terminal rid ps st o
      | exact repliesOnce_close_terminal rid ps st o
      | exact repliesOnce_write_terminal rid ps st o
      | exact repliesOnce_read_terminal rid ps st o
      | exact repliesOnce_send_control rid ps st o
      | exact repliesOnce_clear_terminal rid ps st o
      | exact repliesOnce_exec_repl rid ps st o
      | exact repliesOnce_shim rid ps st o
  exact h

/-- Witness for C1 at a concrete registered method and empty server state. -/
theorem registered_method_exactly_one_reply_witness :
    ("getProcessOutput" ∈ registeredMethods) ∧
    (∃ msg : Message,
      (dispatchRequest "7" "getProcessOutput" [] initialState oracle0).2 = [msg] ∧
      msg.id = "7" ∧
      (msg.type = MessageType.response ∨ msg.type = MessageType.error)) :=
  ⟨by decide,
   registered_method_exactly_one_reply "7" "getProcessOutput" [] initialState oracle0
     (by decide)⟩

/-- C2: for every Request whose method name is not registered, the
dispatcher sends exactly one Error with code 404 and the message
Method '<name>' not found (so the text mentions the requested name),
addressed to the same request id, and the server state is left
completely unchanged. -/
theorem unregistered_method_404 (rid m : String) (ps : Params) (st : SrvState)
    (o : Oracle) (hm : m ∉ registeredMethods) :
    dispatchRequest rid m ps st o
      = (st, [sendError rid 404 ("Method '" ++ m ++ "' not found")]) ∧
    ∃ pre post : String, "Method '" ++ m ++ "' not found" = pre ++ m ++ post := by
  refine ⟨?_, "Method '", "' not found", rfl⟩
  unfold dispatchRequest
  rw [if_neg hm]

/-- Witness for C2 at a concrete unregistered method. -/
theorem unregistered_method_404_witness :
    dispatchRequest "9" "noSuchMethod" [] initialState oracle0
      = (initialState, [sendError "9" 404 ("Method '" ++ "noSuchMethod" ++ "' not found")]) := by
  have h := unregistered_method_404 "9" "noSuchMethod" [] initialState oracle0 (by decide)
  exact h.1

theorem appendProcLine_eq (st : SrvState) (pid x : String) (b : List String)
    (h : alistGet st.processBuffers pid = some b) :
    appendProcLine st pid x
      = { st with processBuffers := alistSet st.processBuffers pid (b ++ [x]) } := by
  simp [appendProcLine, h]

/-- Shape of one pump iteration over a key whose buffer entry exists: it
either finishes (appending the exit marker and leaving the live set without
the key), or continues having appended some lines, or crashes. -/
theorem pumpIter_shape (pid : String) (st : SrvState) (ob : PumpObs) (b : List String)
    (hb : alistGet st.processBuffers pid = some b) :
    (∃ code : Int,
       pumpIter pid st ob = PumpStep.finished
         { st with
             processBuffers := alistSet st.processBuffers pid
               (b ++ ["Process exited with code " ++ toString code]),
             runningProcesses := st.runningProcesses.filter (fun k => k ≠ pid) }) ∨
    (∃ delta : List String, ∃ st' : SrvState,
       pumpIter pid st ob = PumpStep.next st' ∧
       alistGet st'.processBuffers pid = some (b ++ delta) ∧
       st'.runningProcesses = st.runningProcesses) ∨
    (∃ st' : SrvState, pumpIter pid st ob = PumpStep.crashed st') := by
  rcases ob with ⟨exited, outLine, errLine⟩
  cases exited with
  | some code =>
      left
      refine ⟨code, ?_⟩
      simp only [pumpIter]
      rw [appendProcLine_eq st pid _ b hb]
  | none =>
      right
      cases outLine with
      | none =>
          cases errLine with
          | none => exact Or.inl ⟨[], st, by simp [pumpIter], by simp [hb], rfl⟩
          | some c =>
              cases c with
              | valid e =>
                  refine Or.inl ⟨["ERROR: " ++ e], appendProcLine st pid ("ERROR: " ++ e),
                    by simp [pumpIter], ?_, ?_⟩
                  · rw [appendProcLine_eq st pid _ b hb]
                    simp [alistGet_set_self]
                  · rw [appendProcLine_eq st pid _ b hb]
              | invalid e => exact Or.inr ⟨st, by simp [pumpIter]⟩
      | some c =>
          cases c with
          | invalid e => exact Or.inr ⟨st, by simp [pumpIter]⟩
          | valid s =>
              have hbA : alistGet (appendProcLine st pid s).processBuffers pid
                  = some (b ++ [s]) := by
                rw [appendProcLine_eq st pid s b hb]
                simp [alistGet_set_self]
              have hrA : (appendProcLine st pid s).runningProcesses
                  = st.runningProcesses := by
                rw [appendProcLine_eq st pid s b hb]
              cases errLine with
              | none => exact Or.inl ⟨[s], appendProcLine st pid s, by simp [pumpIter], hbA, hrA⟩
              | some c2 =>
                  cases c2 with
                  | invalid e =>
                      exact Or.inr ⟨appendProcLine st pid s, by simp [pumpIter]⟩
                  | valid e =>
                      refine Or.inl ⟨[s, "ERROR: " ++ e],
                        appendProcLine (appendProcLine st pid s) pid ("ERROR: " ++ e),
                        by simp [pumpIter], ?_, ?_⟩
                      · rw [appendProcLine_eq _ pid _ _ hbA]
                        simp [alistGet_set_self]
                      · rw [appendProcLine_eq _ pid _ _ hbA]
                        exact hrA

/-- When the pump loop runs to its exit break, the key's buffer has gained
the lines read plus a final exit-marker line, and the key has been removed
from the live set. -/
theorem pumpRun_finished (pid : String) (obs : List PumpObs) :
    ∀ (st st1 : SrvState) (buf : List String),
    alistGet st.processBuffers pid = some buf →
    pumpRun pid st obs = PumpOutcome.finished st1 →
    (∃ code : Int, ∃ mid : List String,
      alistGet st1.processBuffers pid
        = some (buf ++ (mid ++ ["Process exited with code " ++ toString code]))) ∧
    pid ∉ st1.runningProcesses := by
  induction obs with
  | nil =>
      intro st st1 buf _ hr
      simp [pumpRun] at hr
  | cons ob rest ih =>
      intro st st1 buf hb hr
      simp only [pumpRun] at hr
      rcases pumpIter_shape pid st ob buf hb with ⟨code, hf⟩ | ⟨delta, st', hn, hget, hrunp⟩ | ⟨st', hc⟩
      · rw [hf] at hr
        simp only [PumpOutcome.finished.injEq] at hr
        subst hr
        constructor
        · exact ⟨code, [], by simp [alistGet_set_self]⟩
        · intro hmem
          simp [List.mem_filter] at hmem
      · rw [hn] at hr
        rcases ih st' st1 (buf ++ delta) hget hr with ⟨⟨code, mid, hget1⟩, hnr⟩
        refine ⟨⟨code, delta ++ mid, ?_⟩, hnr⟩
        simpa [List.append_assoc] using hget1
      · rw [hc] at hr
        cases hr

/-- The drain contract of handle_get_process_output over an existing buffer
entry: return everything buffered, clear the buffer in place, and report
live-set membership at the moment of the call. -/
theorem drain_spec (rid pid : String) (o : Oracle) (st : SrvState) (lines : List String)
    (h : alistGet st.processBuffers pid = some lines) :
    handle_get_process_output rid [("processId", JVal.str pid)] st o
      = ({ st with processBuffers := alistSet st.processBuffers pid [] },
         [sendResponse rid (JVal.objOf
           [("output", JVal.arrOf (lines.map JVal.str)),
            ("isRunning", JVal.bool (decide (pid ∈ st.runningProcesses)))])]) := by
  simp [handle_get_process_output, Params.getS, Params.lookup, h]

/-- C3: for every process key created by a successful start, drain returns
all lines buffered since the previous drain and clears the buffer, with
isRunning equal to the key's live-set membership at the moment of the call;
after the process has exited (the pump loop broke at its exit branch), the
first drain's lines include a terminal marker line containing the exit
code, and a second drain returns an empty line set with isRunning false. -/
theorem drain_semantics_and_exit_marker
    (rid rid2 pid : String) (o : Oracle) (st : SrvState) (buf : List String)
    (obs : List PumpObs) (st1 : SrvState)
    (hbuf : alistGet st.processBuffers pid = some buf)
    (hrun : pumpRun pid st obs = PumpOutcome.finished st1) :
    (∀ (st' : SrvState) (lines : List String),
      alistGet st'.processBuffers pid = some lines →
      handle_get_process_output rid [("processId", JVal.str pid)] st' o
        = ({ st' with processBuffers := alistSet st'.processBuffers pid [] },
           [sendResponse rid (JVal.objOf
             [("output", JVal.arrOf (lines.map JVal.str)),
              ("isRunning", JVal.bool (decide (pid ∈ st'.runningProcesses)))])])) ∧
    (∃ lines1 : List String, ∃ code : Int, ∃ st2 : SrvState,
      handle_get_process_output rid [("processId", JVal.str pid)] st1 o
        = (st2, [sendResponse rid (JVal.objOf
             [("output", JVal.arrOf (lines1.map JVal.str)),
              ("isRunning", JVal.bool false)])]) ∧
      ("Process exited with code " ++ toString code) ∈ lines1 ∧
      handle_get_process_output rid2 [("processId", JVal.str pid)] st2 o
        = ({ st2 with processBuffers := alistSet st2.processBuffers pid [] },
           [sendResponse rid2 (JVal.objOf
             [("output", JVal.arrOf []),
              ("isRunning", JVal.bool false)])])) := by
  constructor
  · intro st' lines h
    exact drain_spec rid pid o st' lines h
  · rcases pumpRun_finished pid obs st st1 buf hbuf hrun with ⟨⟨code, mid, hget1⟩, hnr⟩
    have hdec : decide (pid ∈ st1.runningProcesses) = false := by
      simpa using hnr
    refine ⟨buf ++ (mid ++ ["Process exited with code " ++ toString code]), code,
      { st1 with processBuffers := alistSet st1.processBuffers pid [] }, ?_, ?_, ?_⟩
    · rw [drain_spec rid pid o st1 _ hget1, hdec]
    · simp
    · have hget2 : alistGet (alistSet st1.processBuffers pid ([] : List String)) pid
          = some [] := alistGet_set_self _ _ _
      have h2 := drain_spec rid2 pid o
        { st1 with processBuffers := alistSet st1.processBuffers pid [] } [] hget2
      rw [h2, hdec]
      simp

/-- Concrete state for the C3 witness: one live process with one buffered
line. -/
def c3State : SrvState :=
  { runningProcesses := ["p"], processBuffers := [("p", ["hi"])],
    terminals := [], currentTerminalId := none, stdinLog := [] }

/-- The state after the pump observes the exit of that process. -/
def c3StateAfter : SrvState :=
  { runningProcesses := [],
    processBuffers := [("p", ["hi", "Process exited with code 0"])],
    terminals := [], currentTerminalId := none, stdinLog := [] }

/-- Witness for C3: a one-line buffer and a pump trace that exits with code
zero, evaluated concretely. -/
theorem drain_semantics_and_exit_marker_witness :
    (alistGet c3State.processBuffers "p" = some ["hi"]) ∧
    (pumpRun "p" c3State [{ exited := some 0, outLine := none, errLine := none }]
      = PumpOutcome.finished c3StateAfter) ∧
    ((∀ (st' : SrvState) (lines : List String),
      alistGet st'.processBuffers "p" = some lines →
      handle_get_process_output "r1" [("processId", JVal.str "p")] st' oracle0
        = ({ st' with processBuffers := alistSet st'.processBuffers "p" [] },
           [sendResponse "r1" (JVal.objOf
             [("output", JVal.arrOf (lines.map JVal.str)),
              ("isRunning", JVal.bool (decide ("p" ∈ st'.runningProcesses)))])])) ∧
    (∃ lines1 : List String, ∃ code : Int, ∃ st2 : SrvState,
      handle_get_process_output "r1" [("processId", JVal.str "p")] c3StateAfter oracle0
        = (st2, [sendResponse "r1" (JVal.objOf
             [("output", JVal.arrOf (lines1.map JVal.str)),
              ("isRunning", JVal.bool false)])]) ∧
      ("Process exited with code " ++ toString code) ∈ lines1 ∧
      handle_get_process_output "r2" [("processId", JVal.str "p")] st2 oracle0
        = ({ st2 with processBuffers := alistSet st2.processBuffers "p" [] },
           [sendResponse "r2" (JVal.objOf
             [("output", JVal.arrOf []),
              ("isRunning", JVal.bool false)])]))) :=
  ⟨rfl, by decide,
   drain_semantics_and_exit_marker "r1" "r2" "p" oracle0 c3State ["hi"]
     [{ exited := some 0, outLine := none, errLine := none }]
     c3StateAfter rfl (by decide)⟩

/-- The 29-way case split of membership in the method table. -/
theorem registeredMethods_cases (m : String) (hm : m ∈ registeredMethods) :
    m = "executeCommand" ∨ m = "startLongRunningCommand" ∨
    m = "getProcessOutput" ∨ m = "killProcess" ∨ m = "readFile" ∨
    m = "writeFile" ∨ m = "listDirectory" ∨ m = "createDirectory" ∨
    m = "deleteFile" ∨ m = "renameFile" ∨ m = "searchFiles" ∨
    m = "checkPythonEnvironment" ∨ m = "checkClojureEnvironment" ∨
    m = "pythonInspect" ∨ m = "pythonRunCode" ∨ m = "pythonPip" ∨
    m = "pythonVenv" ∨ m = "clojureDeps" ∨ m = "clojureRepl" ∨
    m = "clojureTest" ∨ m = "createTerminalSession" ∨
    m = "listTerminalSessions" ∨ m = "switchTerminalSession" ∨
    m = "closeTerminalSession" ∨ m = "writeToTerminal" ∨
    m = "readTerminalOutput" ∨ m = "sendControlCharacter" ∨
    m = "clearTerminalOutput" ∨ m = "executeReplCommand" := by
  simpa [registeredMethods] using hm

/-- Buffer-key extension: every process key that has a buffer entry in the
first state still has one in the second. -/
def BuffersExtend (st st' : SrvState) : Prop :=
  ∀ pid : String, (alistGet st.processBuffers pid).isSome →
    (alistGet st'.processBuffers pid).isSome

theorem appendTerminalOutput_buffers (st : SrvState) (tid : String) (lines : List String) :
    (appendTerminalOutput st tid lines).processBuffers = st.processBuffers := by
  unfold appendTerminalOutput
  split <;> rfl

theorem appendProcLine_isSome (st : SrvState) (pid x pid' : String)
    (h : (alistGet st.processBuffers pid').isSome) :
    (alistGet (appendProcLine st pid x).processBuffers pid').isSome := by
  unfold appendProcLine
  split
  · exact h
  · exact alistGet_set_isSome _ _ _ _ h

theorem bufExt_execute_command (rid : String) (ps : Params) (st : SrvState) (o : Oracle) :
    BuffersExtend st (handle_execute_command rid ps st o).1 := by
  simp only [handle_execute_command]
  repeat' split
  all_goals intro pid h
  all_goals exact h

theorem bufExt_start (rid : String) (ps : Params) (st : SrvState) (o : Oracle) :
    BuffersExtend st (handle_start_long_running_command rid ps st o).1 := by
  simp only [handle_start_long_running_command]
  repeat' split
  all_goals intro pid h
  all_goals first
    | exact h
    | exact alistGet_set_isSome _ _ _ _ h

theorem bufExt_get_output (rid : String) (ps : Params) (st : SrvState) (o : Oracle) :
    BuffersExtend st (handle_get_process_output rid ps st o).1 := by
  simp only [handle_get_process_output]
  repeat' split
  all_goals intro pid h
  all_goals first
    | exact h
    | exact alistGet_set_isSome _ _ _ _ h

theorem bufExt_kill (rid : String) (ps : Params) (st : SrvState) (o : Oracle) :
    BuffersExtend st (handle_kill_process rid ps st o).1 := by
  simp only [handle_kill_process]
  repeat' split
  all_goals intro pid h
  all_goals exact h

theorem bufExt_shim (rid : String) (ps : Params) (st : SrvState) (o : Oracle) :
    BuffersExtend st (runShimHandler rid ps st o).1 := by
  simp only [runShimHandler]
  repeat' split
  all_goals intro pid h
  all_goals exact h

theorem bufExt_clojure_repl (rid : String) (ps : Params) (st : SrvState) (o : Oracle) :
    BuffersExtend st (handle_clojure_repl rid ps st o).1 := by
  simp only [handle_clojure_repl]
  repeat' split
  all_goals first
    | exact bufExt_start rid _ st o
    | exact bufExt_kill rid _ st o
    | (intro pid h; exact alistGet_set_isSome _ _ _ _ h)
    | (intro pid h; exact h)

theorem bufExt_create_terminal (rid : String) (ps : Params) (st : SrvState) (o : Oracle) :
    BuffersExtend st (handle_create_terminal_session rid ps st o).1 := by
  simp only [handle_create_terminal_session]
  repeat' split
  all_goals intro pid h
  all_goals first
    | exact h
    | (rw [appendTerminalOutput_buffers]; exact h)

theorem bufExt_list_terminals (rid : String) (ps : Params) (st : SrvState) (o : Oracle) :
    BuffersExtend st (handle_list_terminal_sessions rid ps st o).1 := by
  intro pid h
  exact h

theorem bufExt_switch_terminal (rid : String) (ps : Params) (st : SrvState) (o : Oracle) :
    BuffersExtend st (handle_switch_terminal_session rid ps st o).1 := by
  simp only [handle_switch_terminal_session]
  repeat' split
  all_goals intro pid h
  all_goals exact h

theorem bufExt_close_terminal (rid : String) (ps : Params) (st : SrvState) (o : Oracle) :
    BuffersExtend st (handle_close_terminal_session rid ps st o).1 := by
  simp only [handle_close_terminal_session]
  repeat' split
  all_goals intro pid h
  all_goals exact h

theorem bufExt_write_terminal (rid : String) (ps : Params) (st : SrvState) (o : Oracle) :
    BuffersExtend st (handle_write_to_terminal rid ps st o).1 := by
  simp only [handle_write_to_terminal]
  repeat' split
  all_goals intro pid h
  all_goals first
    | exact h
    | (rw [appendTerminalOutput_buffers]; exact h)

theorem bufExt_read_terminal (rid : String) (ps : Params) (st : SrvState) (o : Oracle) :
    BuffersExtend st (handle_read_terminal_output rid ps st o).1 := by
  simp only [handle_read_terminal_output]
  repeat' split
  all_goals intro pid h
  all_goals exact h

theorem bufExt_send_control (rid : String) (ps : Params) (st : SrvState) (o : Oracle) :
    BuffersExtend st (handle_send_control_character rid ps st o).1 := by
  simp only [handle_send_control_character]
  repeat' split
  all_goals intro pid h
  all_goals first
    | exact h
    | (rw [appendTerminalOutput_buffers]; exact h)

theorem bufExt_clear_terminal (rid : String) (ps : Params) (st : SrvState) (o : Oracle) :
    BuffersExtend st (handle_clear_terminal_output rid ps st o).1 := by
  simp only [handle_clear_terminal_output]
  repeat' split
  all_goals intro pid h
  all_goals exact h

/-- The helper _execute_terminal_command never touches the process
buffers, whichever way it returns. -/
theorem execTerminalCommand_buffers (command : String) (tidArg : Option String)
    (st : SrvState) (o : Oracle) :
    ∀ r : ExecTermRes, execTerminalCommand command tidArg st o = r →
    (match r with
     | ExecTermRes.ok st1 _ => st1.processBuffers = st.processBuffers
     | ExecTermRes.exn st1 _ => st1.processBuffers = st.processBuffers) := by
  intro r hr
  simp only [execTerminalCommand] at hr
  repeat' split at hr
  all_goals subst hr
  all_goals simp [appendTerminalOutput_buffers]

theorem isSome_of_eq_buffers {st1 st : SrvState}
    (hb : st1.processBuffers = st.processBuffers) (pid : String)
    (h : (alistGet st.processBuffers pid).isSome) :
    (alistGet st1.processBuffers pid).isSome := by
  rw [hb]
  exact h

theorem bufExt_exec_repl (rid : String) (ps : Params) (st : SrvState) (o : Oracle) :
    BuffersExtend st (handle_execute_repl_command rid ps st o).1 := by
  simp only [handle_execute_repl_command]
  repeat' split
  all_goals intro pid h
  all_goals first
    | exact h
    | (have hb : _ = st.processBuffers :=
         execTerminalCommand_buffers _ _ st o _ (by assumption)
       try rw [appendTerminalOutput_buffers]
       exact isSome_of_eq_buffers hb pid h)

/-- Buffer keys are preserved by handling any dispatched request. -/
theorem bufExt_dispatch (rid m : String) (ps : Params) (st : SrvState) (o : Oracle) :
    BuffersExtend st (dispatchRequest rid m ps st o).1 := by
  by_cases hm : m ∈ registeredMethods
  · unfold dispatchRequest
    rw [if_pos hm]
    rcases registeredMethods_cases m hm with
      rfl|rfl|rfl|rfl|rfl|rfl|rfl|rfl|rfl|rfl|rfl|rfl|rfl|rfl|rfl|
      rfl|rfl|rfl|rfl|rfl|rfl|rfl|rfl|rfl|rfl|rfl|rfl|rfl|rfl
    all_goals first
      | exact bufExt_execute_command rid ps st o
      | exact bufExt_start rid ps st o
      | exact bufExt_get_output rid ps st o
      | exact bufExt_kill rid ps st o
      | exact bufExt_clojure_repl rid ps st o
      | exact bufExt_create_terminal rid ps st o
      | exact bufExt_list_terminals rid ps st o
      | exact bufExt_switch_terminal rid ps st o
      | exact bufExt_close_terminal rid ps st o
      | exact bufExt_write_terminal rid ps st o
      | exact bufExt_read_terminal rid ps st o
      | exact bufExt_send_control rid ps st o
      | exact bufExt_clear_terminal rid ps st o
      | exact bufExt_exec_repl rid ps st o
      | exact bufExt_shim rid ps st o
  · unfold dispatchRequest
    rw [if_neg hm]
    intro pid h
    exact h

/-- A single state-touching step of the server: handling one received frame,
or one iteration of a background pump task. -/
inductive SrvOp where
  | frame (f : Frame) (o : Oracle) : SrvOp
  | pump (pid : String) (ob : PumpObs) : SrvOp

/-- Apply a server step to the state (the messages it sends and whether a
pump crashed are irrelevant to the state it leaves behind). -/
def applySrvOp (st : SrvState) : SrvOp → SrvState
  | SrvOp.frame f o => (processFrame st o f).1
  | SrvOp.pump pid ob =>
      match pumpIter pid st ob with
      | PumpStep.finished st1 => st1
      | PumpStep.next st1 => st1
      | PumpStep.crashed st1 => st1

/-- C10: once a key has a buffer entry, no server operation ever removes it:
drain clears the buffer contents but keeps the key, kill and process exit
remove only the live-set entry; consequently a drain of such a key always
succeeds with a response rather than a NotFound error. -/
theorem buffer_entry_never_removed (op : SrvOp) (st : SrvState) (pid : String)
    (h : (alistGet st.processBuffers pid).isSome) :
    ((alistGet (applySrvOp st op).processBuffers pid).isSome) ∧
    (∀ (rid : String) (o : Oracle), ∃ msg : Message,
      (handle_get_process_output rid [("processId", JVal.str pid)] st o).2 = [msg] ∧
      msg.type = MessageType.response ∧ msg.id = rid) := by
  constructor
  · cases op with
    | frame f o =>
        show (alistGet ((processFrame st o f).1.processBuffers) pid).isSome
        cases f with
        | malformed => exact h
        | obj r =>
            simp only [processFrame]
            repeat' split
            all_goals first
              | exact h
              | exact bufExt_dispatch _ _ _ st _ pid h
    | pump p ob =>
        show (alistGet
          (match pumpIter p st ob with
            | PumpStep.finished st1 => st1
            | PumpStep.next st1 => st1
            | PumpStep.crashed st1 => st1).processBuffers pid).isSome
        rcases ob with ⟨exited, outLine, errLine⟩
        cases exited
        case some code => exact appendProcLine_isSome st p _ pid h
        case none =>
          cases outLine
          case none =>
            cases errLine
            case none => exact h
            case some c =>
              cases c
              case valid e => exact appendProcLine_isSome st p _ pid h
              case invalid e => exact h
          case some c =>
            cases c
            case invalid e => exact h
            case valid sLine =>
              cases errLine
              case none => exact appendProcLine_isSome st p _ pid h
              case some c2 =>
                cases c2
                case valid e =>
                  exact appendProcLine_isSome _ p _ pid (appendProcLine_isSome st p _ pid h)
                case invalid e => exact appendProcLine_isSome st p _ pid h
  · intro rid o
    rcases Option.isSome_iff_exists.mp h with ⟨lines, hlines⟩
    refine ⟨sendResponse rid (JVal.objOf
      [("output", JVal.arrOf (lines.map JVal.str)),
       ("isRunning", JVal.bool (decide (pid ∈ st.runningProcesses)))]), ?_, rfl, rfl⟩
    rw [drain_spec rid pid o st lines hlines]

theorem alistGet_erase_ne (l : List (String × α)) (k k' : String) (h : k' ≠ k) :
    alistGet (alistErase l k) k' = alistGet l k' := by
  induction l with
  | nil => rfl
  | cons p rest ih =>
      by_cases hp : p.1 = k
      · subst hp
        simp [alistErase, alistGet, Ne.symm h]
      · by_cases hq : p.1 = k'
        · simp [alistErase, alistGet, hp, hq, h]
        · simp [alistErase, alistGet, hp, hq, ih]

/-- The current-session pointer, when non-null, names a key of the session
map (the data-model invariant of the spec). -/
def currentValid (st : SrvState) : Prop :=
  ∀ k : String, st.currentTerminalId = some k → (alistGet st.terminals k).isSome

/-- Executable form of currentValid, for concrete evaluation. -/
def currentValidB (st : SrvState) : Bool :=
  match st.currentTerminalId with
  | none => true
  | some k => (alistGet st.terminals k).isSome

theorem currentValid_of_B (st : SrvState) (h : currentValidB st = true) : currentValid st := by
  intro k hk
  unfold currentValidB at h
  rw [hk] at h
  exact h

theorem appendTerminalOutput_current (st : SrvState) (tid : String) (lines : List String) :
    (appendTerminalOutput st tid lines).currentTerminalId = st.currentTerminalId := by
  unfold appendTerminalOutput
  split <;> rfl

theorem appendTerminalOutput_term_isSome (st : SrvState) (tid : String) (lines : List String)
    (k : String) (h : (alistGet st.terminals k).isSome) :
    (alistGet (appendTerminalOutput st tid lines).terminals k).isSome := by
  unfold appendTerminalOutput
  split
  · exact h
  · exact alistGet_set_isSome _ _ _ _ h

theorem currentValid_setTerm (st : SrvState) (tid : String) (t : Terminal)
    (hcv : currentValid st) :
    currentValid { st with terminals := alistSet st.terminals tid t } := by
  intro k hk
  exact alistGet_set_isSome _ _ _ _ (hcv k hk)

theorem currentValid_appendTerm (st : SrvState) (tid : String) (lines : List String)
    (hcv : currentValid st) : currentValid (appendTerminalOutput st tid lines) := by
  intro k hk
  rw [appendTerminalOutput_current] at hk
  exact appendTerminalOutput_term_isSome _ _ _ _ (hcv k hk)

theorem currentValid_pointNew (st : SrvState) (tid : String) (t : Terminal) :
    currentValid { st with terminals := alistSet st.terminals tid t,
                           currentTerminalId := some tid } := by
  intro k hk
  have hk' : some tid = some k := hk
  injection hk' with h2
  subst h2
  simp [alistGet_set_self]

theorem currentValid_pointExisting (st : SrvState) (tid : String)
    (h : (alistGet st.terminals tid).isSome) :
    currentValid { st with currentTerminalId := some tid } := by
  intro k hk
  have hk' : some tid = some k := hk
  injection hk' with h2
  subst h2
  exact h

theorem currentValid_close_none (st : SrvState) (l : List (String × Terminal)) :
    currentValid { st with terminals := l, currentTerminalId := none } := by
  intro k hk
  exact Option.noConfusion (hk : (none : Option String) = some k)

theorem currentValid_close_head (st : SrvState) (p : String × Terminal)
    (rest : List (String × Terminal)) :
    currentValid { st with terminals := p :: rest, currentTerminalId := some p.1 } := by
  intro k hk
  have hk' : some p.1 = some k := hk
  injection hk' with h2
  subst h2
  simp [alistGet]

theorem currentValid_close_other (st : SrvState) (tid : String)
    (hcv : currentValid st) (hne : st.currentTerminalId ≠ some tid) :
    currentValid { st with terminals := alistErase st.terminals tid } := by
  intro k hk
  have hk' : st.currentTerminalId = some k := hk
  have hkne : k ≠ tid := by
    intro he
    subst he
    exact hne hk'
  show (alistGet (alistErase st.terminals tid) k).isSome
  rw [alistGet_erase_ne st.terminals tid k hkne]
  exact hcv k hk'

theorem cv_create (rid : String) (ps : Params) (st : SrvState) (o : Oracle)
    (hcv : currentValid st) :
    currentValid (handle_create_terminal_session rid ps st o).1 := by
  simp only [handle_create_terminal_session]
  repeat' split
  all_goals first
    | exact hcv
    | exact currentValid_pointNew st o.freshId _
    | exact currentValid_setTerm st o.freshId _ hcv
    | exact currentValid_appendTerm _ o.freshId _ (currentValid_pointNew st o.freshId _)
    | exact currentValid_appendTerm _ o.freshId _ (currentValid_setTerm st o.freshId _ hcv)

theorem cv_switch (rid : String) (ps : Params) (st : SrvState) (o : Oracle)
    (hcv : currentValid st) :
    currentValid (handle_switch_terminal_session rid ps st o).1 := by
  simp only [handle_switch_terminal_session]
  repeat' split
  all_goals first
    | exact hcv
    | (rename_i t heq
       exact currentValid_pointExisting st _ (by rw [heq]; rfl))

theorem cv_close (rid : String) (ps : Params) (st : SrvState) (o : Oracle)
    (hcv : currentValid st) :
    currentValid (handle_close_terminal_session rid ps st o).1 := by
  simp only [handle_close_terminal_session]
  split
  · exact hcv
  split
  · exact hcv
  split
  · exact hcv
  split
  · split
    · exact currentValid_close_none st _
    · rename_i p rest heq
      intro k hk
      have hk' : some p.1 = some k := hk
      injection hk' with h2
      subst h2
      show (alistGet (alistErase st.terminals
        ((Params.getSOpt ps "terminalId" st.currentTerminalId).getD "")) p.1).isSome
      rw [heq]
      simp [alistGet]
  · rename_i hne
    exact currentValid_close_other st _ hcv hne

theorem cv_write (rid : String) (ps : Params) (st : SrvState) (o : Oracle)
    (hcv : currentValid st) :
    currentValid (handle_write_to_terminal rid ps st o).1 := by
  simp only [handle_write_to_terminal]
  repeat' split
  all_goals first
    | exact hcv
    | exact currentValid_appendTerm _ _ _ hcv

theorem cv_read (rid : String) (ps : Params) (st : SrvState) (o : Oracle)
    (hcv : currentValid st) :
    currentValid (handle_read_terminal_output rid ps st o).1 := by
  simp only [handle_read_terminal_output]
  repeat' split
  all_goals exact hcv

theorem cv_ctrl (rid : String) (ps : Params) (st : SrvState) (o : Oracle)
    (hcv : currentValid st) :
    currentValid (handle_send_control_character rid ps st o).1 := by
  simp only [handle_send_control_character]
  repeat' split
  all_goals first
    | exact hcv
    | exact currentValid_appendTerm _ _ _ hcv

theorem cv_clear (rid : String) (ps : Params) (st : SrvState) (o : Oracle)
    (hcv : currentValid st) :
    currentValid (handle_clear_terminal_output rid ps st o).1 := by
  simp only [handle_clear_terminal_output]
  repeat' split
  all_goals first
    | exact hcv
    | exact currentValid_setTerm st _ _ hcv

/-- The multiplexer operations named by the pointer invariant of the spec. -/
inductive TermOp where
  | create (rid : String) (ps : Params) (o : Oracle) : TermOp
  | switch (rid : String) (ps : Params) (o : Oracle) : TermOp
  | close (rid : String) (ps : Params) (o : Oracle) : TermOp
  | write (rid : String) (ps : Params) (o : Oracle) : TermOp
  | readHist (rid : String) (ps : Params) (o : Oracle) : TermOp
  | sendCtrl (rid : String) (ps : Params) (o : Oracle) : TermOp
  | clearHist (rid : String) (ps : Params) (o : Oracle) : TermOp

/-- The state left behind by one multiplexer operation. -/
def applyTermOp (st : SrvState) : TermOp → SrvState
  | TermOp.create rid ps o => (handle_create_terminal_session rid ps st o).1
  | TermOp.switch rid ps o => (handle_switch_terminal_session rid ps st o).1
  | TermOp.close rid ps o => (handle_close_terminal_session rid ps st o).1
  | TermOp.write rid ps o => (handle_write_to_terminal rid ps st o).1
  | TermOp.readHist rid ps o => (handle_read_terminal_output rid ps st o).1
  | TermOp.sendCtrl rid ps o => (handle_send_control_character rid ps st o).1
  | TermOp.clearHist rid ps o => (handle_clear_terminal_output rid ps st o).1

/-- C5: the current-terminal-session pointer, whenever non-null, refers to a
key present in the session map, and every multiplexer operation preserves
this; in particular closing the current session in the same step repoints
the pointer to the first remaining session's key, or to null if no session
remains. -/
theorem terminal_current_pointer_invariant :
    (∀ (op : TermOp) (st : SrvState), currentValid st → currentValid (applyTermOp st op)) ∧
    (∀ (rid k : String) (st : SrvState) (o : Oracle),
       st.currentTerminalId = some k → k ≠ "" →
       (alistGet st.terminals k).isSome →
       o.killRes = Except.ok () →
       (handle_close_terminal_session rid [] st o).1.terminals
           = alistErase st.terminals k ∧
       (handle_close_terminal_session rid [] st o).1.currentTerminalId
           = (match alistErase st.terminals k with
              | [] => none
              | p :: _ => some p.1)) := by
  constructor
  · intro op st hcv
    cases op with
    | create rid ps o => exact cv_create rid ps st o hcv
    | switch rid ps o => exact cv_switch rid ps st o hcv
    | close rid ps o => exact cv_close rid ps st o hcv
    | write rid ps o => exact cv_write rid ps st o hcv
    | readHist rid ps o => exact cv_read rid ps st o hcv
    | sendCtrl rid ps o => exact cv_ctrl rid ps st o hcv
    | clearHist rid ps o => exact cv_clear rid ps st o hcv
  · intro rid k st o hcur hk hsome hkill
    rcases Option.isSome_iff_exists.mp hsome with ⟨t, ht⟩
    have hres : Params.getSOpt [] "terminalId" (some k) = some k := by
      simp [Params.getSOpt, Params.lookup]
    have hfal : falsyS (some k) = false := by
      simp [falsyS, hk]
    simp only [handle_close_terminal_session, hcur, hres, Option.getD_some, hfal,
      Bool.false_eq_true, if_false, ht, hkill]
    simp

/-- Concrete two-session state for the C5 witness, current session t1. -/
def c5State : SrvState :=
  { runningProcesses := [], processBuffers := [],
    terminals :=
      [("t1", { shell := "/bin/bash", cwd := "/", name := "one", output := [], createdAt := 0 }),
       ("t2", { shell := "/bin/bash", cwd := "/", name := "two", output := [], createdAt := 1 })],
    currentTerminalId := some "t1", stdinLog := [] }

/-- Witness for C5: the invariant is preserved by a concrete switch, and
closing the current session of the two-session state repoints to t2. -/
theorem terminal_current_pointer_invariant_witness :
    (currentValid (applyTermOp c5State
       (TermOp.switch "r" [("terminalId", JVal.str "t2")] oracle0))) ∧
    ((handle_close_terminal_session "r" [] c5State oracle0).1.terminals
        = alistErase c5State.terminals "t1" ∧
     (handle_close_terminal_session "r" [] c5State oracle0).1.currentTerminalId
        = (match alistErase c5State.terminals "t1" with
           | [] => none
           | p :: _ => some p.1)) :=
  ⟨terminal_current_pointer_invariant.1
     (TermOp.switch "r" [("terminalId", JVal.str "t2")] oracle0) c5State
     (currentValid_of_B c5State (by decide)),
   terminal_current_pointer_invariant.2 "r" "t1" c5State oracle0 rfl
     (by decide) (by decide) rfl⟩

theorem pumpIter_no_crash (pid : String) (st : SrvState) (ob : PumpObs)
    (ho : ∀ e, ob.outLine ≠ some (Chunk.invalid e))
    (he : ∀ e, ob.errLine ≠ some (Chunk.invalid e)) :
    ∀ stc, pumpIter pid st ob ≠ PumpStep.crashed stc := by
  intro stc hc
  rcases ob with ⟨ex, ol, el⟩
  cases ex with
  | some code => simp [pumpIter] at hc
  | none =>
      cases ol with
      | none =>
          cases el with
          | none => simp [pumpIter] at hc
          | some c =>
              cases c with
              | valid e => simp [pumpIter] at hc
              | invalid e => exact he e rfl
      | some c =>
          cases c with
          | invalid e => exact ho e rfl
          | valid sLine =>
              cases el with
              | none => simp [pumpIter] at hc
              | some c2 =>
                  cases c2 with
                  | valid e => simp [pumpIter] at hc
                  | invalid e => exact he e rfl

theorem pumpRun_no_crash (pid : String) (obs : List PumpObs) :
    ∀ st : SrvState,
    (∀ ob ∈ obs, (∀ e, ob.outLine ≠ some (Chunk.invalid e)) ∧
      (∀ e, ob.errLine ≠ some (Chunk.invalid e))) →
    ∀ stc, pumpRun pid st obs ≠ PumpOutcome.crashed stc := by
  induction obs with
  | nil =>
      intro st _ stc hc
      simp [pumpRun] at hc
  | cons ob rest ih =>
      intro st h stc hc
      simp only [pumpRun] at hc
      rcases hpi : pumpIter pid st ob with st1 | st1 | st1
      · rw [hpi] at hc
        cases hc
      · rw [hpi] at hc
        exact ih st1 (fun ob2 hm => h ob2 (List.mem_cons_of_mem _ hm)) stc hc
      · exact pumpIter_no_crash pid st ob
          (h ob (List.mem_cons_self _ _)).1 (h ob (List.mem_cons_self _ _)).2 st1 hpi

/-- Counterexample to C6: one pump iteration that reads a non-UTF-8 stdout
line terminates the pump task (the except clauses catch only TimeoutError),
and the buffer is left exactly as it was, with no best-effort error line
recorded. -/
theorem pump_decode_crash_counterexample :
    pumpRun "p" c3State
        [{ exited := none, outLine := some (Chunk.invalid "UnicodeDecodeError"),
           errLine := none }]
      = PumpOutcome.crashed c3State ∧
    alistGet c3State.processBuffers "p" = some ["hi"] := by
  constructor
  · rfl
  · rfl

/-- C6 as amended: a pump iteration that only times out continues with the
state untouched, and a run whose reads all decode cleanly never crashes; but
a decode failure on either stream terminates the pump task, recording no
output line for the failed read (the state is exactly what it was at the
moment of the failure). -/
theorem pump_error_handling (pid : String) (st : SrvState) (ob : PumpObs) :
    (ob.exited = none → ob.outLine = none → ob.errLine = none →
       pumpIter pid st ob = PumpStep.next st) ∧
    (∀ e, ob.exited = none → ob.outLine = some (Chunk.invalid e) →
       pumpIter pid st ob = PumpStep.crashed st) ∧
    (∀ s e, ob.exited = none → ob.outLine = some (Chunk.valid s) →
       ob.errLine = some (Chunk.invalid e) →
       pumpIter pid st ob = PumpStep.crashed (appendProcLine st pid s)) ∧
    (∀ obs : List PumpObs,
       (∀ ob2 ∈ obs, (∀ e, ob2.outLine ≠ some (Chunk.invalid e)) ∧
         (∀ e, ob2.errLine ≠ some (Chunk.invalid e))) →
       ∀ stc, pumpRun pid st obs ≠ PumpOutcome.crashed stc) := by
  refine ⟨?_, ?_, ?_, ?_⟩
  · intro h1 h2 h3
    simp [pumpIter, h1, h2, h3]
  · intro e h1 h2
    simp [pumpIter, h1, h2]
  · intro s e h1 h2 h3
    simp [pumpIter, h1, h2, h3]
  · intro obs h stc
    exact pumpRun_no_crash pid obs st h stc

/-- A pump observation that only timed out on both streams. -/
def obTimeout : PumpObs := { exited := none, outLine := none, errLine := none }

/-- A pump observation with one cleanly decoded stdout line. -/
def obValidOut : PumpObs :=
  { exited := none, outLine := some (Chunk.valid "ok"), errLine := none }

/-- Witness for C6's amended theorem at a concrete timeout-only trace. -/
theorem pump_error_handling_witness :
    pumpIter "p" c3State obTimeout = PumpStep.next c3State ∧
    pumpRun "p" c3State [obValidOut] ≠ PumpOutcome.crashed c3State :=
  ⟨(pump_error_handling "p" c3State obTimeout).1 rfl rfl rfl,
   (pump_error_handling "p" c3State obTimeout).2.2.2 [obValidOut]
     (by
       intro ob2 hm
       simp at hm
       subst hm
       constructor
       · intro e he
         simp [obValidOut] at he
       · intro e he
         simp [obValidOut] at he)
     c3State⟩

/-- The window the spec promises for a fromEnd history read: exactly the
last min(lineCount, length) lines. -/
def specLastWindow (xs : List String) (n : Nat) : List String :=
  xs.drop (xs.length - n)

/-- The session record of the concrete C9 state. -/
def c9Term : Terminal :=
  { shell := "/bin/bash", cwd := "/", name := "n", output := ["a", "b"], createdAt := 0 }

/-- Concrete one-session state with two history lines for the C9 theorems. -/
def c9State : SrvState :=
  { runningProcesses := [], processBuffers := [], terminals := [("t", c9Term)],
    currentTerminalId := some "t", stdinLog := [] }

/-- Counterexample to C9: at lineCount = 0 the handler returns the whole
history (Python output[-0:] is output[0:]), not the empty window of
min(0, length) = 0 lines that the claim promises. -/
theorem readHistory_zero_counterexample :
    (handle_read_terminal_output "r"
        [("lineCount", JVal.num 0), ("fromEnd", JVal.bool true)] c9State oracle0).2
      = [sendResponse "r" (JVal.objOf
          [("output", JVal.arrOf [JVal.str "a", JVal.str "b"]),
           ("lineCount", JVal.num 2), ("totalLines", JVal.num 2)])] ∧
    specLastWindow ["a", "b"] (Int.toNat 0) = [] ∧
    ([JVal.str "a", JVal.str "b"]
      ≠ (specLastWindow ["a", "b"] (Int.toNat 0)).map JVal.str) := by
  refine ⟨by decide, rfl, ?_⟩
  decide

theorem pyDropFrom_neg (xs : List String) (n : Int) (hn : 0 ≤ n) :
    pyDropFrom xs (-n) = if n = 0 then xs else xs.drop (xs.length - n.toNat) := by
  by_cases h0 : n = 0
  · subst h0
    simp [pyDropFrom]
  · have hneg : -n < 0 := by omega
    rw [if_neg h0]
    unfold pyDropFrom
    rw [if_pos hneg]
    congr 1
    rcases le_total ((xs.length : Int) + -n) 0 with hle | hge
    · rw [max_eq_left hle]
      omega
    · rw [max_eq_right hge]
      omega

/-- C9 as amended: for a non-negative lineCount, a fromEnd history read
returns exactly the last min(lineCount, length) lines when lineCount is
positive, and the entire history when lineCount is zero; the state (and so
the history) is left completely unchanged. -/
theorem readHistory_window (rid tid : String) (st : SrvState) (o : Oracle)
    (t : Terminal) (n : Int) (ht : alistGet st.terminals tid = some t)
    (htid : tid ≠ "") (hn : 0 ≤ n) :
    handle_read_terminal_output rid
        [("lineCount", JVal.num n), ("fromEnd", JVal.bool true),
         ("terminalId", JVal.str tid)] st o
      = (st, [sendResponse rid (JVal.objOf
          [("output", JVal.arrOf
             ((if n = 0 then t.output
               else specLastWindow t.output n.toNat).map JVal.str)),
           ("lineCount", JVal.num
             (if n = 0 then t.output
              else specLastWindow t.output n.toNat).length),
           ("totalLines", JVal.num t.output.length)])]) := by
  have hwin : (if t.output = [] then [] else pyDropFrom t.output (-n))
      = (if n = 0 then t.output else specLastWindow t.output n.toNat) := by
    rw [pyDropFrom_neg t.output n hn]
    by_cases hout : t.output = []
    · simp [hout, specLastWindow]
    · rw [if_neg hout]
      simp [specLastWindow]
  simp only [handle_read_terminal_output, Params.getI, Params.getB, Params.getSOpt,
    Params.lookup, specLastWindow]
  simp only [String.reduceEq, if_true, if_false, reduceIte]
  simp only [falsyS, htid]
  simp only [Option.getD_some, ht]
  simp only [specLastWindow] at hwin
  rw [hwin]
  simp

/-- Witness for the amended C9 theorem at lineCount = 1 on the two-line
history. -/
theorem readHistory_window_witness :
    handle_read_terminal_output "r"
        [("lineCount", JVal.num 1), ("fromEnd", JVal.bool true),
         ("terminalId", JVal.str "t")] c9State oracle0
      = (c9State, [sendResponse "r" (JVal.objOf
          [("output", JVal.arrOf
             ((if (1 : Int) = 0 then c9Term.output
               else specLastWindow c9Term.output (Int.toNat 1)).map JVal.str)),
           ("lineCount", JVal.num
             (if (1 : Int) = 0 then c9Term.output
              else specLastWindow c9Term.output (Int.toNat 1)).length),
           ("totalLines", JVal.num c9Term.output.length)])]) :=
  readHistory_window "r" "t" c9State oracle0 c9Term 1 rfl (by decide) (by decide)

/-- Serialization invariant of the endpoint task: whenever the handler of
the request read i-th is running, exactly i+1 frames have been read. -/
def SerialInv (c : LoopCfg) : Prop :=
  ∀ i n : Nat, c.phase = LoopPhase.running i n → c.readCount = i + 1

theorem loopStep_serial (c : LoopCfg) (h : SerialInv c) : SerialInv (loopStep c) := by
  intro i n hp
  rcases hc : c.phase with _ | ⟨j, m⟩
  · unfold loopStep at hp
    rw [hc] at hp
    cases hpend : c.pending with
    | nil =>
        rw [hpend] at hp
        dsimp at hp
        rw [hc] at hp
        cases hp
    | cons r rest =>
        rw [hpend] at hp
        dsimp at hp
        injection hp with h1 h2
        unfold loopStep
        rw [hc, hpend]
        dsimp
        rw [h1]
  · unfold loopStep at hp ⊢
    rw [hc] at hp ⊢
    cases m with
    | zero =>
        dsimp at hp
        cases hp
    | succ m' =>
        dsimp at hp ⊢
        injection hp with h1 h2
        subst h1
        exact h j (m' + 1) hc

theorem serial_iterate (frames : List LoopReq) (k : Nat) :
    SerialInv ((loopStep)^[k] (loopStart frames)) := by
  induction k with
  | zero =>
      intro i n hp
      exact LoopPhase.noConfusion (hp : LoopPhase.receiving = LoopPhase.running i n)
  | succ k ih =>
      rw [Function.iterate_succ_apply']
      exact loopStep_serial _ ih

/-- Counterexample to C4 at a concrete input: with a slow first handler
(two cooperative segments) and a second frame already on the wire, at no
point in the execution of the endpoint task is a frame beyond the running
handler's own frame read — the dispatcher does not read the newly arriving
request while the slow handler runs. -/
theorem dispatcher_not_concurrent_counterexample :
    ¬ ∃ (k i n : Nat),
      ((loopStep)^[k] (loopStart [⟨"a", 2⟩, ⟨"b", 0⟩])).phase = LoopPhase.running i n ∧
      i + 1 < ((loopStep)^[k] (loopStart [⟨"a", 2⟩, ⟨"b", 0⟩])).readCount := by
  rintro ⟨k, i, n, hp, hlt⟩
  have hs := serial_iterate [⟨"a", 2⟩, ⟨"b", 0⟩] k i n hp
  omega

/-- C4 as amended: the dispatcher serializes handler execution per channel.
The endpoint task awaits each handler inline (main.py line 429), so whenever
the handler of the i-th read request is still running, exactly i+1 frames
have been read: a newly arriving request on the same channel is not read off
the wire, let alone dispatched, until the running handler completes. -/
theorem dispatcher_serializes_handlers (frames : List LoopReq) (k i n : Nat)
    (h : ((loopStep)^[k] (loopStart frames)).phase = LoopPhase.running i n) :
    ((loopStep)^[k] (loopStart frames)).readCount = i + 1 :=
  serial_iterate frames k i n h

/-- Witness for the amended C4 theorem: two steps in, the slow handler of
frame 0 is mid-run and only one frame has been read. -/
theorem dispatcher_serializes_handlers_witness :
    ((loopStep)^[2] (loopStart [⟨"a", 2⟩, ⟨"b", 0⟩])).phase = LoopPhase.running 0 1 ∧
    ((loopStep)^[2] (loopStart [⟨"a", 2⟩, ⟨"b", 0⟩])).readCount = 0 + 1 :=
  ⟨by decide, dispatcher_serializes_handlers [⟨"a", 2⟩, ⟨"b", 0⟩] 2 0 1 (by decide)⟩

/-- The field-shape validation the pydantic Message model actually performs
(main.py lines 20-26): the type tag must parse, id must be a string, method
a string or null, params and error objects or null; result is untyped. -/
def pydFieldsOK (r : RawFrame) : Bool :=
  (match r.typeF with
   | some tv => (parseMessageType tv).isSome
   | none => false) &&
  (match r.idF with
   | some (JVal.str _) => true
   | _ => false) &&
  (optStrField r.methodF).isSome &&
  (optObjField r.paramsF).isSome &&
  (optObjField r.errorF).isSome

/-- Presence of a field in the sense of the spec's data model: set and not
null. -/
def presentF : Option JVal → Bool
  | none => false
  | some JVal.null => false
  | some _ => true

/-- Modelled from the spec (section 3): the discriminated-variant invariant,
exactly one of method+params, result, error populated, and id non-empty for
a Request.  Stated from the spec's words to compare against what decode
enforces. -/
def specVariantOK (r : RawFrame) : Bool :=
  (((presentF r.methodF && presentF r.paramsF) && !presentF r.resultF && !presentF r.errorF) ||
   ((!(presentF r.methodF && presentF r.paramsF)) && presentF r.resultF && !presentF r.errorF) ||
   ((!(presentF r.methodF && presentF r.paramsF)) && !presentF r.resultF && presentF r.errorF)) &&
  (match r.typeF, r.idF with
   | some (JVal.str "request"), some (JVal.str i) => !(i = "")
   | _, _ => true)

/-- A frame that violates the exclusivity invariant: a request carrying
method, params, result and error all at once. -/
def badFrame : RawFrame :=
  { typeF := some (JVal.str "request"), idF := some (JVal.str "1"),
    methodF := some (JVal.str "nosuch"), paramsF := some (JVal.objOf []),
    resultF := some (JVal.num 1),
    errorF := some (JVal.objOf [("code", JVal.num 500), ("message", JVal.str "x")]) }

/-- Counterexample to C7: a frame violating the discriminated-variant
invariant still decodes successfully and is dispatched, producing a reply,
instead of being a DecodeError silently dropped without a reply. -/
theorem variant_violation_dispatched_counterexample :
    specVariantOK badFrame = false ∧
    (decodeMessage badFrame).isSome = true ∧
    (processFrame initialState oracle0 (Frame.obj badFrame)).2
      = [sendError "1" 404 ("Method '" ++ "nosuch" ++ "' not found")] := by
  refine ⟨by decide, by decide, by decide⟩

/-- C7 as amended: decoding enforces only the pydantic field shapes (type
tag, id a string, method a string or null, params and error objects or
null), not the variant-exclusivity invariant or a non-empty request id;
malformed JSON and frames failing that validation are silently dropped at
the dispatch boundary, with no reply, no crash, and the receive loop (and so
the channel) continuing; a decoded message that is not a request with a
truthy method is likewise ignored. -/
theorem decode_boundary (st : SrvState) (o : Oracle) (r : RawFrame) :
    (processFrame st o Frame.malformed = (st, [])) ∧
    (decodeMessage r = none → processFrame st o (Frame.obj r) = (st, [])) ∧
    ((decodeMessage r).isSome = pydFieldsOK r) ∧
    (∀ m : Message, decodeMessage r = some m →
       ¬(m.type = MessageType.request ∧ truthyMethod m.method = true) →
       processFrame st o (Frame.obj r) = (st, [])) := by
  refine ⟨rfl, ?_, ?_, ?_⟩
  · intro hd
    simp [processFrame, hd]
  · rcases r with ⟨tF, iF, mF, pF, rF, eF⟩
    simp only [decodeMessage, pydFieldsOK]
    cases tF with
    | none => simp
    | some tv =>
        cases hp : parseMessageType tv with
        | none => simp [hp]
        | some t =>
            simp only [hp]
            cases iF with
            | none => simp
            | some iv =>
                cases iv with
                | str i =>
                    rcases hm : optStrField mF with _ | mOpt
                    · simp [hm]
                    · rcases hps : optObjField pF with _ | psOpt
                      · simp [hm, hps]
                      · rcases he : optObjField eF with _ | eOpt
                        · simp [hm, hps, he]
                        · simp [hm, hps, he]
                | null => simp
                | bool b => simp
                | num nv => simp
                | arr xs => simp
                | obj fs => simp
  · intro m hm hnot
    simp only [processFrame, hm]
    rw [if_neg]
    intro hand
    exact hnot ⟨hand.1, hand.2⟩

/-- A frame with no fields at all (fails pydantic validation: type and id
are required). -/
def emptyFrame : RawFrame := {}

/-- Witness for the amended C7 theorem: the empty frame fails validation
and is dropped without a reply, and malformed JSON likewise. -/
theorem decode_boundary_witness :
    (processFrame initialState oracle0 Frame.malformed = (initialState, [])) ∧
    (processFrame initialState oracle0 (Frame.obj emptyFrame) = (initialState, [])) ∧
    ((decodeMessage emptyFrame).isSome = pydFieldsOK emptyFrame) :=
  ⟨(decode_boundary initialState oracle0 emptyFrame).1,
   (decode_boundary initialState oracle0 emptyFrame).2.1 (by decide),
   (decode_boundary initialState oracle0 emptyFrame).2.2.1⟩

/-- C8: the supervisor's write-input path (the eval action of the
clojureRepl method, clojure_extension.py lines 93-116, the code that writes
to a managed process's stdin): for a live process key it appends a newline
to the text and writes it to that process's input stream; it fails with a
404 NotFound error when the key is not live, and with a code-500 error (the
spec's IOError class) when the write to the input stream raises. -/
theorem write_input_semantics (rid pid text : String) (st : SrvState) (o : Oracle)
    (hpid : pid ≠ "") (htext : text ≠ "") :
    (pid ∈ st.runningProcesses → o.stdinWrite = Except.ok () →
       (handle_clojure_repl rid
          [("action", JVal.str "eval"), ("processId", JVal.str pid),
           ("code", JVal.str text)] st o).1.stdinLog
         = st.stdinLog ++ [(pid, text ++ "\n")]) ∧
    (pid ∉ st.runningProcesses →
       handle_clojure_repl rid
          [("action", JVal.str "eval"), ("processId", JVal.str pid),
           ("code", JVal.str text)] st o
         = (st, [sendError rid 404 ("REPL process " ++ pid ++ " not found")])) ∧
    (∀ e : String, pid ∈ st.runningProcesses → o.stdinWrite = Except.error e →
       handle_clojure_repl rid
          [("action", JVal.str "eval"), ("processId", JVal.str pid),
           ("code", JVal.str text)] st o
         = (st, [sendError rid 500 e])) := by
  have ha : Params.getS [("action", JVal.str "eval"), ("processId", JVal.str pid),
      ("code", JVal.str text)] "action" "start" = "eval" := by
    simp [Params.getS, Params.lookup]
  have hb : Params.getS [("action", JVal.str "eval"), ("processId", JVal.str pid),
      ("code", JVal.str text)] "processId" "" = pid := by
    simp [Params.getS, Params.lookup]
  have hc2 : Params.getS [("action", JVal.str "eval"), ("processId", JVal.str pid),
      ("code", JVal.str text)] "code" "" = text := by
    simp [Params.getS, Params.lookup]
  refine ⟨?_, ?_, ?_⟩
  · intro hmem hw
    simp only [handle_clojure_repl, ha, hb, hc2]
    rw [if_neg (by decide : ¬("eval" = "start"))]
    rw [if_pos (show True ∧ pid ≠ "" ∧ text ≠ "" from ⟨trivial, hpid, htext⟩)]
    rw [if_pos hmem, hw]
    dsimp only
    split <;> rfl
  · intro hmem
    simp only [handle_clojure_repl, ha, hb, hc2]
    rw [if_neg (by decide : ¬("eval" = "start"))]
    rw [if_pos (show True ∧ pid ≠ "" ∧ text ≠ "" from ⟨trivial, hpid, htext⟩)]
    rw [if_neg hmem]
  · intro e hmem hw
    simp only [handle_clojure_repl, ha, hb, hc2]
    rw [if_neg (by decide : ¬("eval" = "start"))]
    rw [if_pos (show True ∧ pid ≠ "" ∧ text ≠ "" from ⟨trivial, hpid, htext⟩)]
    rw [if_pos hmem, hw]

/-- Witness for C8: a live process receives text plus newline on stdin; an
unknown key gets the 404. -/
theorem write_input_semantics_witness :
    ((handle_clojure_repl "r"
        [("action", JVal.str "eval"), ("processId", JVal.str "p"),
         ("code", JVal.str "x")] c3State oracle0).1.stdinLog
      = [("p", "x" ++ "\n")]) ∧
    (handle_clojure_repl "r"
        [("action", JVal.str "eval"), ("processId", JVal.str "q"),
         ("code", JVal.str "x")] c3State oracle0
      = (c3State, [sendError "r" 404 ("REPL process " ++ "q" ++ " not found")])) :=
  ⟨(write_input_semantics "r" "p" "x" c3State oracle0 (by decide) (by decide)).1
     (by decide) rfl,
   (write_input_semantics "r" "q" "x" c3State oracle0 (by decide) (by decide)).2.1
     (by decide)⟩

/-- Witness for C10: a pump exit step on the concrete one-process state. -/
theorem buffer_entry_never_removed_witness :
    ((alistGet c3State.processBuffers "p").isSome) ∧
    ((alistGet (applySrvOp c3State
        (SrvOp.pump "p" { exited := some 0, outLine := none, errLine := none })).processBuffers
        "p").isSome) ∧
    (∀ (rid : String) (o : Oracle), ∃ msg : Message,
      (handle_get_process_output rid [("processId", JVal.str "p")] c3State o).2 = [msg] ∧
      msg.type = MessageType.response ∧ msg.id = rid) := by
  have h := buffer_entry_never_removed
    (SrvOp.pump "p" { exited := some 0, outLine := none, errLine := none })
    c3State "p" (by decide)
  exact ⟨by decide, h.1, h.2⟩

end MCP
